import Mathlib

/-!
RenderCore runtime player: entity store, transform engine, physics, script bridge.

A shallow embedding of `runtime_player.cpp`.

Conventions of the embedding
* `float` / `double` values are idealised as exact rationals (`ℚ`); rounding, infinities and
  NaN are outside the model.
* `glm::mat4` and the glm matrix builders are abstract: every definition that touches a
  matrix is parameterised by a record `Glm M` of builders over an arbitrary matrix type `M`.
* `g_sceneObjects` (a `std::vector<std::unique_ptr<SceneObject>>`) is a `List`, a handle is
  an index into it.
* The Lua VM is external.  A script run is represented by the bridge calls it performs
  (a tree that may branch on the values the bridge returns).
-/

namespace RenderCore

/-! ## Vectors and matrices -/

/-- The type `glm::vec3`. -/
structure Vec3 where
  x : ℚ
  y : ℚ
  z : ℚ
deriving DecidableEq

namespace Vec3

/-- Component-wise sum, `a + b`. -/
def add (a b : Vec3) : Vec3 := ⟨a.x + b.x, a.y + b.y, a.z + b.z⟩

/-- Component-wise difference, `a - b`. -/
def sub (a b : Vec3) : Vec3 := ⟨a.x - b.x, a.y - b.y, a.z - b.z⟩

/-- Vector times scalar, `v * k`. -/
def smul (v : Vec3) (k : ℚ) : Vec3 := ⟨v.x * k, v.y * k, v.z * k⟩

instance : Add Vec3 := ⟨add⟩
instance : Sub Vec3 := ⟨sub⟩
instance : HMul Vec3 ℚ Vec3 := ⟨smul⟩

/-- The constructor `glm::vec3(s)`: all three components equal. -/
def splat (s : ℚ) : Vec3 := ⟨s, s, s⟩

end Vec3

/-- The glm functions used by the runtime, over an abstract matrix type `M`.
`rotate m deg axis` stands for `glm::rotate(m, glm::radians(deg), axis)`; `length` is
`glm::length`, a square root, kept abstract as well. -/
structure Glm (M : Type) where
  identity : M
  translate : M → Vec3 → M
  rotate : M → ℚ → Vec3 → M
  scale : M → Vec3 → M
  mul : M → M → M
  length : Vec3 → ℚ

/-- Matrix terms: the free interpretation of the builders, used for concrete evaluation. -/
inductive MatExpr where
  | identity : MatExpr
  | translate : MatExpr → Vec3 → MatExpr
  | rotate : MatExpr → ℚ → Vec3 → MatExpr
  | scale : MatExpr → Vec3 → MatExpr
  | mul : MatExpr → MatExpr → MatExpr
deriving DecidableEq

/-- The builders interpreted as term constructors; `length` is interpreted as the
1-norm (nothing below depends on which function it is). -/
def symbolicGlm : Glm MatExpr :=
  { identity := MatExpr.identity
    translate := MatExpr.translate
    rotate := MatExpr.rotate
    scale := MatExpr.scale
    mul := MatExpr.mul
    length := fun v => |v.x| + |v.y| + |v.z| }

/-! ## Imported animation data (the parts of `aiScene` the runtime reads) -/

/-- The type `aiQuaternion`. -/
structure Quat where
  w : ℚ
  x : ℚ
  y : ℚ
  z : ℚ
deriving DecidableEq

/-- The type `aiVectorKey`: a time and a vector value. -/
structure AiVectorKey where
  mTime : ℚ
  mValue : Vec3
deriving DecidableEq

/-- The type `aiQuatKey`: a time and a quaternion value. -/
structure AiQuatKey where
  mTime : ℚ
  mValue : Quat
deriving DecidableEq

/-- The type `aiNodeAnim`: one channel; `mNum*Keys` is the length of the key list. -/
structure AiNodeAnim where
  mNodeName : String
  mPositionKeys : List AiVectorKey
  mRotationKeys : List AiQuatKey
  mScalingKeys : List AiVectorKey
deriving DecidableEq

/-- The type `aiAnimation`: one clip; `mNumChannels` is the length of `mChannels`. -/
structure AiAnimation where
  mName : String
  mDuration : ℚ
  mTicksPerSecond : ℚ
  mChannels : List AiNodeAnim
deriving DecidableEq

/-- The type `aiScene`: `mRootNode` holds the root node name (`none` for a null pointer),
`mNumAnimations` is the length of `mAnimations`. -/
structure AiScene where
  mRootNode : Option String
  mAnimations : List AiAnimation
deriving DecidableEq

/-! ## Scene objects -/

/-- The enum `ObjectType`, kept as its underlying integer because `LoadScene` casts an
arbitrary JSON integer to it. -/
abbrev ObjectType := Int

/-- Enumerator `ObjectType::CUBE`. -/
def ObjectType.CUBE : ObjectType := 0
/-- Enumerator `ObjectType::SPHERE`. -/
def ObjectType.SPHERE : ObjectType := 1
/-- Enumerator `ObjectType::PLANE`. -/
def ObjectType.PLANE : ObjectType := 2
/-- Enumerator `ObjectType::LIGHT`. -/
def ObjectType.LIGHT : ObjectType := 3
/-- Enumerator `ObjectType::CAMERA`. -/
def ObjectType.CAMERA : ObjectType := 4

/-- The struct `SceneObject`, with the defaults of its member initialisers. The owning
`importer` pointer is represented by `scene` alone. -/
structure SceneObject (M : Type) where
  name : String := ""
  textureName : String := ""
  texturePath : String := ""
  modelPath : String := ""
  scriptPath : String := ""
  transform : M
  type : ObjectType := ObjectType.CUBE
  color : Vec3 := Vec3.splat 1
  visible : Bool := true
  VAO : Nat := 0
  VBO : Nat := 0
  EBO : Nat := 0
  indexCount : Int := 0
  hasPhysics : Bool := false
  isStatic : Bool := false
  velocity : Vec3 := Vec3.splat 0
  scale : Vec3 := Vec3.splat 1
  rotation : Vec3 := Vec3.splat 0
  position : Vec3 := Vec3.splat 0
  lightIntensity : ℚ := 1
  lightColor : Vec3 := Vec3.splat 1
  lightRadius : ℚ := 10
  cameraFOV : ℚ := 45
  cameraNear : ℚ := 1 / 10
  cameraFar : ℚ := 100
  parentIndex : Int := -1
  childIndices : List Int := []
  animationNames : List String := []
  currentAnimation : String := "None"
  isAnimationPlaying : Bool := false
  animationTime : ℚ := 0
  scene : Option AiScene := none
deriving DecidableEq

section Transform

variable {M : Type}

/-- The matrix `T * R * S` built in `SceneObject::updateTransform` from the three local
components. -/
def composeTransform (glm : Glm M) (position rotation scale : Vec3) : M :=
  let T := glm.translate glm.identity position
  let R := glm.rotate glm.identity rotation.x ⟨1, 0, 0⟩
  let R := glm.rotate R rotation.y ⟨0, 1, 0⟩
  let R := glm.rotate R rotation.z ⟨0, 0, 1⟩
  let S := glm.scale glm.identity scale
  glm.mul (glm.mul T R) S

/-- The method `SceneObject::updateTransform`. -/
def SceneObject.updateTransform (glm : Glm M) (obj : SceneObject M) : SceneObject M :=
  { obj with transform := composeTransform glm obj.position obj.rotation obj.scale }

/-- The transform invariant: the stored matrix is the composition evaluated on the current
position, rotation and scale. -/
def TransformInv (glm : Glm M) (obj : SceneObject M) : Prop :=
  obj.transform = composeTransform glm obj.position obj.rotation obj.scale

end Transform

/-! ## Physics integrator -/

section Physics

variable {M : Type}

/-- The constant `gravity` of `UpdatePhysics`. -/
def gravity : Vec3 := ⟨0, -981 / 100, 0⟩

/-- Line `obj->velocity += gravity * deltaTime;`. -/
def integrateVelocity (obj : SceneObject M) (deltaTime : ℚ) : SceneObject M :=
  { obj with velocity := obj.velocity + gravity * deltaTime }

/-- Line `obj->position += obj->velocity * deltaTime;`. -/
def integratePosition (obj : SceneObject M) (deltaTime : ℚ) : SceneObject M :=
  { obj with position := obj.position + obj.velocity * deltaTime }

/-- The ground collision branch of `UpdatePhysics`. -/
def groundCollision (obj : SceneObject M) : SceneObject M :=
  if obj.position.y < -1 then
    let obj1 := { obj with position := { obj.position with y := -1 } }
    { obj1 with velocity := { obj1.velocity with y := -obj1.velocity.y * (1 / 2) } }
  else obj

/-- One iteration of the loop of `UpdatePhysics`. -/
def physicsStep (glm : Glm M) (deltaTime : ℚ) (obj : SceneObject M) : SceneObject M :=
  if !obj.hasPhysics || obj.isStatic then obj
  else
    (groundCollision (integratePosition (integrateVelocity obj deltaTime) deltaTime)).updateTransform glm

/-- The function `UpdatePhysics`. -/
def UpdatePhysics (glm : Glm M) (deltaTime : ℚ) (objs : List (SceneObject M)) :
    List (SceneObject M) :=
  objs.map (physicsStep glm deltaTime)

end Physics

/-! ## Animation sampler -/

section Animation

variable {M : Type}

/-- The function `glm::clamp(x, minVal, maxVal)`, that is `min(max(x, minVal), maxVal)`. -/
def clamp (x minVal maxVal : ℚ) : ℚ := min (max x minVal) maxVal

/-- The C function `fmod(x, y)`: `x - trunc(x / y) * y`, the quotient truncated toward zero. -/
def fmod (x y : ℚ) : ℚ :=
  let q := x / y
  x - (if 0 ≤ q then (⌊q⌋ : ℤ) else (⌈q⌉ : ℤ)) * y

/-- The effective name of clip `i`: its declared name, or `Animation_<i>` when that is empty. -/
def clipName (i : Nat) (anim : AiAnimation) : String :=
  if anim.mName.isEmpty then "Animation_" ++ toString i else anim.mName

/-- The clip lookup loop of `UpdateAnimations`, scanning from index `i`. -/
def findAnimationFrom (currentAnimation : String) : Nat → List AiAnimation → Option AiAnimation
  | _, [] => none
  | i, anim :: rest =>
    if currentAnimation = clipName i anim then some anim
    else findAnimationFrom currentAnimation (i + 1) rest

/-- The clip lookup of `UpdateAnimations`; `none` is the null `anim` pointer. -/
def findAnimation (currentAnimation : String) (scene : AiScene) : Option AiAnimation :=
  findAnimationFrom currentAnimation 0 scene.mAnimations

/-- The channel choice of `UpdateAnimations`: the first channel bound to the root node name,
else channel 0; `none` when the clip has no channel. -/
def findChannel (scene : AiScene) (anim : AiAnimation) : Option AiNodeAnim :=
  let nodeAnim : Option AiNodeAnim :=
    match scene.mRootNode with
    | some rootName => anim.mChannels.find? (fun ch => ch.mNodeName = rootName)
    | none => none
  match nodeAnim with
  | some ch => some ch
  | none => anim.mChannels.head?

/-- The bracket search loop `for (i = ...; i < numKeys - 1; i++)` with `fuel` iterations left:
the first `i` with `animationTime < time[i + 1]`; when the loop runs to completion `frame`
keeps its initial value `0`. -/
def findFrameLoop (keyTime : Nat → ℚ) (animationTime : ℚ) : Nat → Nat → Nat
  | 0, _ => 0
  | fuel + 1, i =>
    if animationTime < keyTime (i + 1) then i
    else findFrameLoop keyTime animationTime fuel (i + 1)

/-- The bracket search over `numKeys` keys, `numKeys > 0`. -/
def findFrame (keyTime : Nat → ℚ) (numKeys : Nat) (animationTime : ℚ) : Nat :=
  findFrameLoop keyTime animationTime (numKeys - 1) 0

/-- The interpolation fraction `delta` after the clamp. -/
def keyDelta (t1 t2 animationTime : ℚ) : ℚ :=
  let delta := if t2 - t1 = 0 then 0 else (animationTime - t1) / (t2 - t1)
  clamp delta 0 1

/-- Key `i` of a vector channel (`keys[i]`). -/
def vectorKey (keys : List AiVectorKey) (i : Nat) : AiVectorKey :=
  keys.getD i ⟨0, ⟨0, 0, 0⟩⟩

/-- Key `i` of a rotation channel (`keys[i]`). -/
def quatKey (keys : List AiQuatKey) (i : Nat) : AiQuatKey :=
  keys.getD i ⟨0, ⟨0, 0, 0, 0⟩⟩

/-- The body of the position block and of the scale block of `UpdateAnimations` (the two are
the same code on different key arrays): bracket, fraction, component-wise interpolation. -/
def sampleVectorKeys (keys : List AiVectorKey) (animationTime : ℚ) : Vec3 :=
  let frame := findFrame (fun i => (vectorKey keys i).mTime) keys.length animationTime
  let nextFrame := (frame + 1) % keys.length
  let t1 := (vectorKey keys frame).mTime
  let t2 := (vectorKey keys nextFrame).mTime
  let delta := keyDelta t1 t2 animationTime
  let v1 := (vectorKey keys frame).mValue
  let v2 := (vectorKey keys nextFrame).mValue
  ⟨v1.x + (v2.x - v1.x) * delta, v1.y + (v2.y - v1.y) * delta, v1.z + (v2.z - v1.z) * delta⟩

/-- The body of the rotation block of `UpdateAnimations`. `slerpEuler q1 q2 delta` stands for
the library chain `aiQuaternion::Interpolate`, `Normalize`, `glm::eulerAngles`,
`glm::degrees`. -/
def sampleRotationKeys (slerpEuler : Quat → Quat → ℚ → Vec3) (keys : List AiQuatKey)
    (animationTime : ℚ) : Vec3 :=
  let frame := findFrame (fun i => (quatKey keys i).mTime) keys.length animationTime
  let nextFrame := (frame + 1) % keys.length
  let t1 := (quatKey keys frame).mTime
  let t2 := (quatKey keys nextFrame).mTime
  let delta := keyDelta t1 t2 animationTime
  slerpEuler (quatKey keys frame).mValue (quatKey keys nextFrame).mValue delta

/-- The clock update of `UpdateAnimations`: advance, then wrap past the duration. -/
def advanceClock (anim : AiAnimation) (animationTime deltaTime : ℚ) : ℚ :=
  let ticksPerSecond := if anim.mTicksPerSecond ≠ 0 then anim.mTicksPerSecond else 25
  let animationTime := animationTime + deltaTime * ticksPerSecond
  if animationTime > anim.mDuration then fmod animationTime anim.mDuration else animationTime

/-- The three interpolation blocks of `UpdateAnimations` followed by `updateTransform`. -/
def applyChannel (glm : Glm M) (slerpEuler : Quat → Quat → ℚ → Vec3) (nodeAnim : AiNodeAnim)
    (obj : SceneObject M) : SceneObject M :=
  let obj :=
    if nodeAnim.mPositionKeys.length > 0 then
      { obj with position := sampleVectorKeys nodeAnim.mPositionKeys obj.animationTime }
    else obj
  let obj :=
    if nodeAnim.mRotationKeys.length > 0 then
      { obj with rotation := sampleRotationKeys slerpEuler nodeAnim.mRotationKeys obj.animationTime }
    else obj
  let obj :=
    if nodeAnim.mScalingKeys.length > 0 then
      { obj with scale := sampleVectorKeys nodeAnim.mScalingKeys obj.animationTime }
    else obj
  obj.updateTransform glm

/-- One iteration of the loop of `UpdateAnimations`. -/
def animationStep (glm : Glm M) (slerpEuler : Quat → Quat → ℚ → Vec3) (deltaTime : ℚ)
    (obj : SceneObject M) : SceneObject M :=
  if !obj.isAnimationPlaying || obj.currentAnimation = "None" || obj.scene.isNone then obj
  else
    match obj.scene with
    | none => obj
    | some scene =>
      match findAnimation obj.currentAnimation scene with
      | none => obj
      | some anim =>
        let obj := { obj with animationTime := advanceClock anim obj.animationTime deltaTime }
        if anim.mChannels.length = 0 then obj
        else
          match findChannel scene anim with
          | none => obj
          | some nodeAnim => applyChannel glm slerpEuler nodeAnim obj

/-- The function `UpdateAnimations`. -/
def UpdateAnimations (glm : Glm M) (slerpEuler : Quat → Quat → ℚ → Vec3) (deltaTime : ℚ)
    (objs : List (SceneObject M)) : List (SceneObject M) :=
  objs.map (animationStep glm slerpEuler deltaTime)

end Animation

/-! ## Script bridge: the functions registered in `InitLua` -/

section Bridge

variable {M : Type}

/-- A value pushed on the Lua stack by a bridge function. -/
inductive LuaValue where
  | nil : LuaValue
  | boolean : Bool → LuaValue
  | integer : Int → LuaValue
  | number : ℚ → LuaValue
deriving DecidableEq

/-- The implicit conversion in `int objID = luaL_checkinteger(L, 1);`: a 64-bit
`lua_Integer` narrowed to a 32-bit `int` (two's complement wrap). -/
def toCInt (i : Int) : Int := (i + 2147483648) % 4294967296 - 2147483648

/-- The bounds guard `objID < 0 || objID >= static_cast<int>(g_sceneObjects.size())`. -/
def handleOutOfRange (objs : List (SceneObject M)) (objID : Int) : Bool :=
  decide (objID < 0) || decide (objID ≥ toCInt objs.length)

/-- In-place update of `g_sceneObjects[i]`. -/
def modifyAt (f : SceneObject M → SceneObject M) : List (SceneObject M) → Nat →
    List (SceneObject M)
  | [], _ => []
  | obj :: rest, 0 => f obj :: rest
  | obj :: rest, i + 1 => obj :: modifyAt f rest i

/-- The scan `for (size_t i = ...; i < g_sceneObjects.size(); ++i)` for the first object
whose name equals `name`, started at index `i`. -/
def findByNameFrom (name : String) : Nat → List (SceneObject M) → Option Nat
  | _, [] => none
  | i, obj :: rest => if obj.name = name then some i else findByNameFrom name (i + 1) rest

/-- The function `Lua_GetObjectByName`; `name` is the C string returned by
`luaL_checkstring`. -/
def Lua_GetObjectByName (objs : List (SceneObject M)) (name : String) : List LuaValue :=
  match findByNameFrom name 0 objs with
  | some i => [LuaValue.integer i]
  | none => [LuaValue.nil]

/-- The function `Lua_GetSelf`. -/
def Lua_GetSelf (objs : List (SceneObject M)) (currentScriptParent : String) : List LuaValue :=
  if currentScriptParent.isEmpty then [LuaValue.nil]
  else
    match findByNameFrom currentScriptParent 0 objs with
    | some i => [LuaValue.integer i]
    | none => [LuaValue.nil]

/-- The function `Lua_SetPosition`. -/
def Lua_SetPosition (glm : Glm M) (objs : List (SceneObject M)) (arg1 : Int) (x y z : ℚ) :
    List (SceneObject M) × List LuaValue :=
  let objID := toCInt arg1
  if handleOutOfRange objs objID then (objs, [])
  else
    (modifyAt (fun obj => ({ obj with position := ⟨x, y, z⟩ }).updateTransform glm)
      objs objID.toNat, [])

/-- The function `Lua_GetPosition`. -/
def Lua_GetPosition (objs : List (SceneObject M)) (arg1 : Int) : List LuaValue :=
  let objID := toCInt arg1
  if handleOutOfRange objs objID then [LuaValue.nil]
  else
    match objs.get? objID.toNat with
    | some obj =>
      [LuaValue.number obj.position.x, LuaValue.number obj.position.y,
        LuaValue.number obj.position.z]
    | none => []

/-- The function `Lua_Move`. -/
def Lua_Move (glm : Glm M) (objs : List (SceneObject M)) (arg1 : Int) (dx dy dz : ℚ) :
    List (SceneObject M) × List LuaValue :=
  let objID := toCInt arg1
  if handleOutOfRange objs objID then (objs, [])
  else
    (modifyAt (fun obj =>
        ({ obj with position := obj.position + (⟨dx, dy, dz⟩ : Vec3) }).updateTransform glm)
      objs objID.toNat, [])

/-- The function `Lua_SetRotation`. -/
def Lua_SetRotation (glm : Glm M) (objs : List (SceneObject M)) (arg1 : Int) (x y z : ℚ) :
    List (SceneObject M) × List LuaValue :=
  let objID := toCInt arg1
  if handleOutOfRange objs objID then (objs, [])
  else
    (modifyAt (fun obj => ({ obj with rotation := ⟨x, y, z⟩ }).updateTransform glm)
      objs objID.toNat, [])

/-- The function `Lua_GetRotation`. -/
def Lua_GetRotation (objs : List (SceneObject M)) (arg1 : Int) : List LuaValue :=
  let objID := toCInt arg1
  if handleOutOfRange objs objID then [LuaValue.nil]
  else
    match objs.get? objID.toNat with
    | some obj =>
      [LuaValue.number obj.rotation.x, LuaValue.number obj.rotation.y,
        LuaValue.number obj.rotation.z]
    | none => []

/-- The function `Lua_Rotate`. -/
def Lua_Rotate (glm : Glm M) (objs : List (SceneObject M)) (arg1 : Int) (dx dy dz : ℚ) :
    List (SceneObject M) × List LuaValue :=
  let objID := toCInt arg1
  if handleOutOfRange objs objID then (objs, [])
  else
    (modifyAt (fun obj =>
        ({ obj with rotation := obj.rotation + (⟨dx, dy, dz⟩ : Vec3) }).updateTransform glm)
      objs objID.toNat, [])

/-- The function `Lua_SetScale`. -/
def Lua_SetScale (glm : Glm M) (objs : List (SceneObject M)) (arg1 : Int) (x y z : ℚ) :
    List (SceneObject M) × List LuaValue :=
  let objID := toCInt arg1
  if handleOutOfRange objs objID then (objs, [])
  else
    (modifyAt (fun obj => ({ obj with scale := ⟨x, y, z⟩ }).updateTransform glm)
      objs objID.toNat, [])

/-- The function `Lua_GetScale`. -/
def Lua_GetScale (objs : List (SceneObject M)) (arg1 : Int) : List LuaValue :=
  let objID := toCInt arg1
  if handleOutOfRange objs objID then [LuaValue.nil]
  else
    match objs.get? objID.toNat with
    | some obj =>
      [LuaValue.number obj.scale.x, LuaValue.number obj.scale.y, LuaValue.number obj.scale.z]
    | none => []

/-- The function `Lua_SetVelocity`. -/
def Lua_SetVelocity (objs : List (SceneObject M)) (arg1 : Int) (x y z : ℚ) :
    List (SceneObject M) × List LuaValue :=
  let objID := toCInt arg1
  if handleOutOfRange objs objID then (objs, [])
  else (modifyAt (fun obj => { obj with velocity := ⟨x, y, z⟩ }) objs objID.toNat, [])

/-- The function `Lua_GetVelocity`. -/
def Lua_GetVelocity (objs : List (SceneObject M)) (arg1 : Int) : List LuaValue :=
  let objID := toCInt arg1
  if handleOutOfRange objs objID then [LuaValue.nil]
  else
    match objs.get? objID.toNat with
    | some obj =>
      [LuaValue.number obj.velocity.x, LuaValue.number obj.velocity.y,
        LuaValue.number obj.velocity.z]
    | none => []

/-- The function `Lua_AddVelocity`. -/
def Lua_AddVelocity (objs : List (SceneObject M)) (arg1 : Int) (x y z : ℚ) :
    List (SceneObject M) × List LuaValue :=
  let objID := toCInt arg1
  if handleOutOfRange objs objID then (objs, [])
  else
    (modifyAt (fun obj => { obj with velocity := obj.velocity + (⟨x, y, z⟩ : Vec3) }) objs objID.toNat, [])

/-- The function `Lua_SetVisible`. -/
def Lua_SetVisible (objs : List (SceneObject M)) (arg1 : Int) (visible : Bool) :
    List (SceneObject M) × List LuaValue :=
  let objID := toCInt arg1
  if handleOutOfRange objs objID then (objs, [])
  else (modifyAt (fun obj => { obj with visible := visible }) objs objID.toNat, [])

/-- The function `Lua_IsVisible`. -/
def Lua_IsVisible (objs : List (SceneObject M)) (arg1 : Int) : List LuaValue :=
  let objID := toCInt arg1
  if handleOutOfRange objs objID then [LuaValue.boolean false]
  else
    match objs.get? objID.toNat with
    | some obj => [LuaValue.boolean obj.visible]
    | none => []

/-- The function `Lua_SetColor`. -/
def Lua_SetColor (objs : List (SceneObject M)) (arg1 : Int) (r g b : ℚ) :
    List (SceneObject M) × List LuaValue :=
  let objID := toCInt arg1
  if handleOutOfRange objs objID then (objs, [])
  else (modifyAt (fun obj => { obj with color := ⟨r, g, b⟩ }) objs objID.toNat, [])

/-- The function `Lua_GetColor`. -/
def Lua_GetColor (objs : List (SceneObject M)) (arg1 : Int) : List LuaValue :=
  let objID := toCInt arg1
  if handleOutOfRange objs objID then [LuaValue.nil]
  else
    match objs.get? objID.toNat with
    | some obj =>
      [LuaValue.number obj.color.x, LuaValue.number obj.color.y, LuaValue.number obj.color.z]
    | none => []

/-- The function `Lua_GetDistance`. -/
def Lua_GetDistance (glm : Glm M) (objs : List (SceneObject M)) (arg1 arg2 : Int) :
    List LuaValue :=
  let obj1 := toCInt arg1
  let obj2 := toCInt arg2
  if handleOutOfRange objs obj1 || handleOutOfRange objs obj2 then [LuaValue.number (-1)]
  else
    match objs.get? obj1.toNat, objs.get? obj2.toNat with
    | some o1, some o2 => [LuaValue.number (glm.length (o1.position - o2.position))]
    | _, _ => []

/-- The function `Lua_PlayAnimation`. -/
def Lua_PlayAnimation (objs : List (SceneObject M)) (arg1 : Int) (animName : String) :
    List (SceneObject M) × List LuaValue :=
  let objID := toCInt arg1
  if handleOutOfRange objs objID then (objs, [])
  else
    (modifyAt (fun obj =>
        { obj with currentAnimation := animName, isAnimationPlaying := true, animationTime := 0 })
      objs objID.toNat, [])

/-- The function `Lua_StopAnimation`. -/
def Lua_StopAnimation (objs : List (SceneObject M)) (arg1 : Int) :
    List (SceneObject M) × List LuaValue :=
  let objID := toCInt arg1
  if handleOutOfRange objs objID then (objs, [])
  else (modifyAt (fun obj => { obj with isAnimationPlaying := false }) objs objID.toNat, [])

end Bridge

/-! ## Global run state -/

/-- The SDL scancodes named in the key table of `Lua_IsKeyPressed`. -/
inductive SDL_Scancode where
  | W | A | S | D | Q | E | SPACE | LSHIFT | LCTRL | LALT | UP | DOWN | LEFT | RIGHT
  | RETURN | ESCAPE
deriving DecidableEq

/-- The struct `InputState`, restricted to the key array. -/
structure InputState where
  keys : SDL_Scancode → Bool := fun _ => false

/-- The struct `Camera` with the defaults of its member initialisers. -/
structure Camera where
  position : Vec3 := ⟨5, 5, 5⟩
  front : Vec3 := ⟨0, 0, -1⟩
  up : Vec3 := ⟨0, 1, 0⟩
  right : Vec3 := ⟨1, 0, 0⟩
  yaw : ℚ := -90
  pitch : ℚ := 0
  fov : ℚ := 45
  nearPlane : ℚ := 1 / 10
  farPlane : ℚ := 100
deriving DecidableEq

/-- The global variables the update core reads and writes: `g_sceneObjects`,
`g_currentScriptParent`, `g_sceneCamera`, `g_deltaTime`, `g_camera`, `g_input`, and whether
`g_luaState` is non-null. -/
structure Runtime (M : Type) where
  sceneObjects : List (SceneObject M) := []
  currentScriptParent : String := ""
  sceneCamera : Int := -1
  deltaTime : ℚ := 0
  camera : Camera := {}
  input : InputState := {}
  luaState : Bool := true

section Scripts

variable {M : Type}

/-- The table `keyMap` of `Lua_IsKeyPressed`. -/
def keyMap : List (String × SDL_Scancode) :=
  [("W", SDL_Scancode.W), ("A", SDL_Scancode.A), ("S", SDL_Scancode.S), ("D", SDL_Scancode.D),
    ("Q", SDL_Scancode.Q), ("E", SDL_Scancode.E), ("Space", SDL_Scancode.SPACE),
    ("Shift", SDL_Scancode.LSHIFT), ("Ctrl", SDL_Scancode.LCTRL), ("Alt", SDL_Scancode.LALT),
    ("Up", SDL_Scancode.UP), ("Down", SDL_Scancode.DOWN), ("Left", SDL_Scancode.LEFT),
    ("Right", SDL_Scancode.RIGHT), ("Enter", SDL_Scancode.RETURN),
    ("Escape", SDL_Scancode.ESCAPE)]

/-- The function `Lua_IsKeyPressed`. -/
def Lua_IsKeyPressed (input : InputState) (keyName : String) : List LuaValue :=
  match keyMap.lookup keyName with
  | some code => [LuaValue.boolean (input.keys code)]
  | none => [LuaValue.boolean false]

/-- The function `Lua_GetDeltaTime`. -/
def Lua_GetDeltaTime (deltaTime : ℚ) : List LuaValue := [LuaValue.number deltaTime]

/-- A call of one of the functions registered in `InitLua`, with its arguments already
converted by `luaL_checkinteger`, `luaL_checknumber`, `luaL_checkstring`, `lua_toboolean`. -/
inductive BridgeCall where
  | GetObjectByName (name : String)
  | GetSelf
  | SetPosition (objID : Int) (x y z : ℚ)
  | GetPosition (objID : Int)
  | Move (objID : Int) (dx dy dz : ℚ)
  | SetRotation (objID : Int) (x y z : ℚ)
  | GetRotation (objID : Int)
  | Rotate (objID : Int) (dx dy dz : ℚ)
  | SetScale (objID : Int) (x y z : ℚ)
  | GetScale (objID : Int)
  | SetVelocity (objID : Int) (x y z : ℚ)
  | GetVelocity (objID : Int)
  | AddVelocity (objID : Int) (x y z : ℚ)
  | SetVisible (objID : Int) (visible : Bool)
  | IsVisible (objID : Int)
  | SetColor (objID : Int) (r g b : ℚ)
  | GetColor (objID : Int)
  | IsKeyPressed (keyName : String)
  | GetDeltaTime
  | GetDistance (obj1 obj2 : Int)
  | Print (message : String)
  | PlayAnimation (objID : Int) (animName : String)
  | StopAnimation (objID : Int)
deriving DecidableEq

/-- Replace the entity store of a run state, returning the values pushed. -/
def Runtime.withObjects (rt : Runtime M) (r : List (SceneObject M) × List LuaValue) :
    Runtime M × List LuaValue :=
  ({ rt with sceneObjects := r.1 }, r.2)

/-- Dispatch of a script call to the registered bridge function: the run state after the
call and the values returned to the script. -/
def callBridge (glm : Glm M) (rt : Runtime M) : BridgeCall → Runtime M × List LuaValue
  | .GetObjectByName name => (rt, Lua_GetObjectByName rt.sceneObjects name)
  | .GetSelf => (rt, Lua_GetSelf rt.sceneObjects rt.currentScriptParent)
  | .SetPosition objID x y z => rt.withObjects (Lua_SetPosition glm rt.sceneObjects objID x y z)
  | .GetPosition objID => (rt, Lua_GetPosition rt.sceneObjects objID)
  | .Move objID dx dy dz => rt.withObjects (Lua_Move glm rt.sceneObjects objID dx dy dz)
  | .SetRotation objID x y z => rt.withObjects (Lua_SetRotation glm rt.sceneObjects objID x y z)
  | .GetRotation objID => (rt, Lua_GetRotation rt.sceneObjects objID)
  | .Rotate objID dx dy dz => rt.withObjects (Lua_Rotate glm rt.sceneObjects objID dx dy dz)
  | .SetScale objID x y z => rt.withObjects (Lua_SetScale glm rt.sceneObjects objID x y z)
  | .GetScale objID => (rt, Lua_GetScale rt.sceneObjects objID)
  | .SetVelocity objID x y z => rt.withObjects (Lua_SetVelocity rt.sceneObjects objID x y z)
  | .GetVelocity objID => (rt, Lua_GetVelocity rt.sceneObjects objID)
  | .AddVelocity objID x y z => rt.withObjects (Lua_AddVelocity rt.sceneObjects objID x y z)
  | .SetVisible objID visible => rt.withObjects (Lua_SetVisible rt.sceneObjects objID visible)
  | .IsVisible objID => (rt, Lua_IsVisible rt.sceneObjects objID)
  | .SetColor objID r g b => rt.withObjects (Lua_SetColor rt.sceneObjects objID r g b)
  | .GetColor objID => (rt, Lua_GetColor rt.sceneObjects objID)
  | .IsKeyPressed keyName => (rt, Lua_IsKeyPressed rt.input keyName)
  | .GetDeltaTime => (rt, Lua_GetDeltaTime rt.deltaTime)
  | .GetDistance obj1 obj2 => (rt, Lua_GetDistance glm rt.sceneObjects obj1 obj2)
  | .Print _ => (rt, [])
  | .PlayAnimation objID animName =>
    rt.withObjects (Lua_PlayAnimation rt.sceneObjects objID animName)
  | .StopAnimation objID => rt.withObjects (Lua_StopAnimation rt.sceneObjects objID)

/-- The run of a Lua chunk as seen from the host: it either finishes (`true` for `LUA_OK`,
`false` for an error), or calls a bridge function and continues according to the values
that call returned. -/
inductive LuaProg where
  | finish (ok : Bool) : LuaProg
  | call (c : BridgeCall) (k : List LuaValue → LuaProg) : LuaProg

/-- One bridge call observed during a script run: the run state before the call, the call,
and the values returned. -/
structure BridgeEvent (M : Type) where
  before : Runtime M
  call : BridgeCall
  results : List LuaValue

/-- Execute a chunk against the run state: final state, completion status and the bridge
calls made, in order. -/
def runProg (glm : Glm M) : LuaProg → Runtime M → (Runtime M × Bool) × List (BridgeEvent M)
  | .finish ok, rt => ((rt, ok), [])
  | .call c k, rt =>
    let r := callBridge glm rt c
    let rest := runProg glm (k r.2) r.1
    (rest.1, ⟨rt, c, r.2⟩ :: rest.2)

/-- What one `runScript` invocation executes: the top-level chunk of `luaL_dofile`, and the
global `OnUpdate` found afterwards when it is a function. -/
structure ScriptRun where
  body : LuaProg
  onUpdate : Option LuaProg

/-- The method `SceneObject::runScript`, returning the new run state and the bridge calls
made while the script ran. -/
def SceneObject.runScript (glm : Glm M) (script : ScriptRun) (obj : SceneObject M)
    (rt : Runtime M) : Runtime M × List (BridgeEvent M) :=
  if obj.scriptPath.isEmpty || !rt.luaState then (rt, [])
  else
    let rt := { rt with currentScriptParent := obj.name }
    let body := runProg glm script.body rt
    let after : Runtime M × List (BridgeEvent M) :=
      if body.1.2 then
        match script.onUpdate with
        | some onUpdate =>
          let upd := runProg glm onUpdate body.1.1
          (upd.1.1, body.2 ++ upd.2)
        | none => (body.1.1, body.2)
      else (body.1.1, body.2)
    ({ after.1 with currentScriptParent := "" }, after.2)

/-- The call `obj->runScript()` of the main loop for the object at index `i`. -/
def runScriptAt (glm : Glm M) (script : ScriptRun) (i : Nat) (rt : Runtime M) :
    Runtime M × List (BridgeEvent M) :=
  match rt.sceneObjects.get? i with
  | some obj => obj.runScript glm script rt
  | none => (rt, [])

end Scripts

/-! ## Scene loading -/

section Load

variable {M : Type}

/-- One record of the `objects` array of the scene file; the optional fields are the ones
`LoadScene` reads with a default. -/
structure ObjJson where
  name : String
  type : Int
  position : Vec3
  rotation : Vec3
  scale : Vec3
  color : Vec3
  textureName : Option String := none
  texturePath : Option String := none
  modelPath : Option String := none
  script : Option String := none
  hasPhysics : Option Bool := none
  isStatic : Option Bool := none
  lightIntensity : Option ℚ := none
  lightColor : Option Vec3 := none
  lightRadius : Option ℚ := none
  cameraFOV : Option ℚ := none
  cameraNear : Option ℚ := none
  cameraFar : Option ℚ := none
deriving DecidableEq

/-- The parsed scene file. -/
structure SceneJson where
  objects : List ObjJson
  sceneCamera : Option Int := none
deriving DecidableEq

/-- What a successful `LoadMeshFromFile` stores in the object. -/
structure MeshImport where
  scene : AiScene
  VAO : Nat
  VBO : Nat
  EBO : Nat
  indexCount : Int
deriving DecidableEq

/-- The function `LoadMeshFromFile`; `readFile` is the asset import backend, `none` being
the failure branch. -/
def LoadMeshFromFile (readFile : String → Option MeshImport) (obj : SceneObject M)
    (path : String) : SceneObject M :=
  match readFile path with
  | none => obj
  | some mesh =>
    { obj with scene := some mesh.scene, indexCount := mesh.indexCount, VAO := mesh.VAO,
               VBO := mesh.VBO, EBO := mesh.EBO }

/-- The body of the object loop of `LoadScene` up to `obj->updateTransform()` (texture
upload, which only touches the texture table, is left out). The JSON integer `type` goes
through the cast `(ObjectType)(int)objJson["type"]`, so it is narrowed to `int`. -/
def loadObject (glm : Glm M) (readFile : String → Option MeshImport) (objJson : ObjJson) :
    SceneObject M :=
  let obj : SceneObject M :=
    { transform := glm.identity
      name := objJson.name
      type := toCInt objJson.type
      position := objJson.position
      rotation := objJson.rotation
      scale := objJson.scale
      color := objJson.color
      textureName := objJson.textureName.getD ""
      texturePath := objJson.texturePath.getD ""
      modelPath := objJson.modelPath.getD ""
      scriptPath := objJson.script.getD ""
      hasPhysics := objJson.hasPhysics.getD false
      isStatic := objJson.isStatic.getD false
      lightIntensity := objJson.lightIntensity.getD 1
      lightColor := objJson.lightColor.getD (Vec3.splat 1)
      lightRadius := objJson.lightRadius.getD 10
      cameraFOV := objJson.cameraFOV.getD 45
      cameraNear := objJson.cameraNear.getD (1 / 10)
      cameraFar := objJson.cameraFar.getD 100 }
  let obj := if !obj.modelPath.isEmpty then LoadMeshFromFile readFile obj obj.modelPath else obj
  obj.updateTransform glm

/-- The object loop of `LoadScene`: the store built so far and `g_sceneCamera`. -/
def loadObjects (glm : Glm M) (readFile : String → Option MeshImport) :
    List ObjJson → List (SceneObject M) × Int → List (SceneObject M) × Int
  | [], acc => acc
  | objJson :: rest, (objs, sceneCamera) =>
    let obj := loadObject glm readFile objJson
    let sceneCamera := if obj.type = ObjectType.CAMERA then toCInt objs.length else sceneCamera
    loadObjects glm readFile rest (objs ++ [obj], sceneCamera)

/-- The function `LoadScene`; `sceneJson = none` is the branch where the file cannot be
opened. The JSON integer `sceneCamera` is assigned to the `int` variable `g_sceneCamera`, so
it is narrowed to `int`. -/
def LoadScene (glm : Glm M) (readFile : String → Option MeshImport)
    (sceneJson : Option SceneJson) (rt : Runtime M) : Runtime M :=
  match sceneJson with
  | none => rt
  | some sceneJson =>
    let loaded := loadObjects glm readFile sceneJson.objects ([], rt.sceneCamera)
    let sceneCamera :=
      match sceneJson.sceneCamera with
      | some index => toCInt index
      | none => loaded.2
    { rt with sceneObjects := loaded.1, sceneCamera := sceneCamera }

end Load

/-! ## Sample data and auxiliary functions used by the theorems -/

/-- A falling cube used to evaluate the integrator: at the origin, at rest, with physics. -/
def restingCube : SceneObject MatExpr :=
  { transform := MatExpr.identity, name := "Cube", hasPhysics := true }

/-- The vertical part of one physics step on the pair (position.y, velocity.y) of an
integrated entity. -/
def yStep (dt : ℚ) (s : ℚ × ℚ) : ℚ × ℚ :=
  let v := s.2 + -981 / 100 * dt
  let p := s.1 + v * dt
  if p < -1 then (-1, -v * (1 / 2)) else (p, v)

/-- The end-to-end scenario cube: a physics entity at (0, 5, 0), at rest, no script. -/
def dropCube : SceneObject MatExpr :=
  { transform := MatExpr.identity, name := "Cube", hasPhysics := true, position := ⟨0, 5, 0⟩ }

/-- A cube whose transform has been recomputed, as every loaded object's is. -/
def loadedCube : SceneObject MatExpr := restingCube.updateTransform symbolicGlm

/-- A scene description with a single physics cube at (0, 5, 0). -/
def cubeScene : SceneJson :=
  { objects :=
      [{ name := "Cube", type := ObjectType.CUBE, position := ⟨0, 5, 0⟩, rotation := ⟨0, 0, 0⟩,
         scale := ⟨1, 1, 1⟩, color := ⟨1, 1, 1⟩, hasPhysics := some true }] }

/-- An entity named "Floor" without a script. -/
def floorObj : SceneObject MatExpr := { transform := MatExpr.identity, name := "Floor" }

/-- A scripted entity named "Dup". -/
def dupA : SceneObject MatExpr :=
  { transform := MatExpr.identity, name := "Dup", scriptPath := "dup.lua" }

/-- A second scripted entity named "Dup", at another position. -/
def dupB : SceneObject MatExpr :=
  { transform := MatExpr.identity, name := "Dup", scriptPath := "dup.lua",
    position := ⟨1, 0, 0⟩ }

/-- A store with two entities both named "Dup", at handles 1 and 2. -/
def dupStore : List (SceneObject MatExpr) := [floorObj, dupA, dupB]

/-- A run state whose store is `dupStore`. -/
def dupRuntime : Runtime MatExpr := { sceneObjects := dupStore }

/-- A script whose top-level chunk calls `GetSelf()` once and defines no `OnUpdate`. -/
def getSelfScript : ScriptRun :=
  { body := LuaProg.call BridgeCall.GetSelf (fun _ => LuaProg.finish true), onUpdate := none }

/-- The `GetSelf` call observed when `getSelfScript` runs for an entity of `dupStore` named
"Dup": it returns handle 1. -/
def dupEvent : BridgeEvent MatExpr :=
  { before := { sceneObjects := dupStore, currentScriptParent := "Dup" }
    call := BridgeCall.GetSelf
    results := [LuaValue.integer 1] }

/-- A scripted entity named "Door". -/
def doorObj : SceneObject MatExpr :=
  { transform := MatExpr.identity, name := "Door", scriptPath := "door.lua" }

/-- A run state whose store holds a floor and the door. -/
def doorRuntime : Runtime MatExpr := { sceneObjects := [floorObj, doorObj] }

/-- The `GetSelf` call observed when `getSelfScript` runs for the door. -/
def doorEvent : BridgeEvent MatExpr :=
  { before := { sceneObjects := [floorObj, doorObj], currentScriptParent := "Door" }
    call := BridgeCall.GetSelf
    results := [LuaValue.integer 1] }

/-- The handle arguments of a bridge call (the integers it bounds-checks). -/
def BridgeCall.handles : BridgeCall → List Int
  | .SetPosition objID _ _ _ => [objID]
  | .GetPosition objID => [objID]
  | .Move objID _ _ _ => [objID]
  | .SetRotation objID _ _ _ => [objID]
  | .GetRotation objID => [objID]
  | .Rotate objID _ _ _ => [objID]
  | .SetScale objID _ _ _ => [objID]
  | .GetScale objID => [objID]
  | .SetVelocity objID _ _ _ => [objID]
  | .GetVelocity objID => [objID]
  | .AddVelocity objID _ _ _ => [objID]
  | .SetVisible objID _ => [objID]
  | .IsVisible objID => [objID]
  | .SetColor objID _ _ _ => [objID]
  | .GetColor objID => [objID]
  | .GetDistance obj1 obj2 => [obj1, obj2]
  | .PlayAnimation objID _ => [objID]
  | .StopAnimation objID => [objID]
  | _ => []

/-- The value a bridge accessor returns for an invalid handle: nil for the getters, false
for IsVisible, -1 for GetDistance, nothing for the setters. -/
def BridgeCall.sentinel : BridgeCall → List LuaValue
  | .GetPosition _ => [LuaValue.nil]
  | .GetRotation _ => [LuaValue.nil]
  | .GetScale _ => [LuaValue.nil]
  | .GetVelocity _ => [LuaValue.nil]
  | .GetColor _ => [LuaValue.nil]
  | .IsVisible _ => [LuaValue.boolean false]
  | .GetDistance _ _ => [LuaValue.number (-1)]
  | _ => []

/-- A run state whose store is the single cube `loadedCube`. -/
def cubeRuntime : Runtime MatExpr := { sceneObjects := [loadedCube] }

/-! ## Sample data and auxiliary functions for the animation, script and load theorems -/

/-- The state `Playing` of the animation state machine: the playing flag is set and a clip
is active (`currentAnimation` is not the no-clip marker "None"), the condition under which
`UpdateAnimations` goes on to look up the clip. -/
def Playing {M : Type} (obj : SceneObject M) : Prop :=
  obj.isAnimationPlaying = true ∧ obj.currentAnimation ≠ "None"

/-- The part of the loop body of `UpdateAnimations` after the clip lookup has found `anim`:
clock update, channel choice, interpolation blocks and transform recompute. -/
def sampleClip {M : Type} (glm : Glm M) (slerpEuler : Quat → Quat → ℚ → Vec3) (deltaTime : ℚ)
    (scene : AiScene) (anim : AiAnimation) (obj : SceneObject M) : SceneObject M :=
  let obj := { obj with animationTime := advanceClock anim obj.animationTime deltaTime }
  if anim.mChannels.length = 0 then obj
  else
    match findChannel scene anim with
    | none => obj
    | some nodeAnim => applyChannel glm slerpEuler nodeAnim obj

/-- A stand-in for the quaternion library chain, used only to evaluate sample steps. -/
def sampleSlerp (q1 _q2 : Quat) (_delta : ℚ) : Vec3 := ⟨q1.x, q1.y, q1.z⟩

/-- Position keys at times 0, 1, 2 whose first and last values are equal. -/
def loopKeys : List AiVectorKey :=
  [⟨0, ⟨0, 0, 0⟩⟩, ⟨1, ⟨10, 0, 0⟩⟩, ⟨2, ⟨0, 0, 0⟩⟩]

/-- Position keys at times 0, 1, 2 with three different values, the middle one off the
segment joining the other two. -/
def rampKeys : List AiVectorKey :=
  [⟨0, ⟨0, 0, 0⟩⟩, ⟨1, ⟨10, 5, 0⟩⟩, ⟨2, ⟨20, 0, 0⟩⟩]

/-- The interpolation part of the position and scale blocks for a given bracket index
`frame`: next index, fraction and component-wise interpolation. -/
def interpolateVectorKeys (keys : List AiVectorKey) (frame : Nat) (animationTime : ℚ) : Vec3 :=
  let nextFrame := (frame + 1) % keys.length
  let t1 := (vectorKey keys frame).mTime
  let t2 := (vectorKey keys nextFrame).mTime
  let delta := keyDelta t1 t2 animationTime
  let v1 := (vectorKey keys frame).mValue
  let v2 := (vectorKey keys nextFrame).mValue
  ⟨v1.x + (v2.x - v1.x) * delta, v1.y + (v2.y - v1.y) * delta, v1.z + (v2.z - v1.z) * delta⟩

/-- Position keys with two keys at time 0 carrying different values. -/
def doubleStartKeys : List AiVectorKey :=
  [⟨0, ⟨0, 0, 0⟩⟩, ⟨0, ⟨10, 0, 0⟩⟩, ⟨1, ⟨20, 0, 0⟩⟩]

/-- A clip of duration 2 at 25 ticks per second with the single channel `loopKeys`. -/
def loopClip : AiAnimation :=
  { mName := "Loop", mDuration := 2, mTicksPerSecond := 25,
    mChannels := [{ mNodeName := "Root", mPositionKeys := loopKeys, mRotationKeys := [],
                    mScalingKeys := [] }] }

/-- An imported asset holding `loopClip`. -/
def loopScene : AiScene := { mRootNode := some "Root", mAnimations := [loopClip] }

/-- An entity playing "Loop" from clock 0. -/
def loopObj : SceneObject MatExpr :=
  { transform := MatExpr.identity, name := "Mover", scene := some loopScene,
    currentAnimation := "Loop", isAnimationPlaying := true, position := ⟨7, 7, 7⟩,
    rotation := ⟨1, 2, 3⟩ }

/-- A scene description with two CAMERA-kind entities, at indices 0 and 1, and no explicit
scene-level camera index. -/
def twoCameraScene : SceneJson :=
  { objects :=
      [{ name := "CamA", type := ObjectType.CAMERA, position := ⟨0, 0, 0⟩,
         rotation := ⟨0, 0, 0⟩, scale := ⟨1, 1, 1⟩, color := ⟨1, 1, 1⟩ },
       { name := "CamB", type := ObjectType.CAMERA, position := ⟨1, 0, 0⟩,
         rotation := ⟨0, 0, 0⟩, scale := ⟨1, 1, 1⟩, color := ⟨1, 1, 1⟩ }] }

/-- The first record of `twoCameraScene`. -/
def cameraJsonA : ObjJson :=
  { name := "CamA", type := ObjectType.CAMERA, position := ⟨0, 0, 0⟩,
    rotation := ⟨0, 0, 0⟩, scale := ⟨1, 1, 1⟩, color := ⟨1, 1, 1⟩ }

/-- The second record of `twoCameraScene`. -/
def cameraJsonB : ObjJson :=
  { name := "CamB", type := ObjectType.CAMERA, position := ⟨1, 0, 0⟩,
    rotation := ⟨0, 0, 0⟩, scale := ⟨1, 1, 1⟩, color := ⟨1, 1, 1⟩ }

/-- The C string a `std::string` or Lua string denotes when it is read through a
`const char*`: its characters up to the first NUL. -/
def cString (s : String) : String :=
  String.mk (s.data.takeWhile (fun c => decide (c ≠ Char.ofNat 0)))

/-- A scripted entity whose name has an embedded NUL after "Door". -/
def nulObj : SceneObject MatExpr :=
  { transform := MatExpr.identity, name := "Door\x00X", scriptPath := "door.lua" }

/-- A run state whose store holds the door at handle 0 and `nulObj` at handle 1. -/
def nulRuntime : Runtime MatExpr := { sceneObjects := [doorObj, nulObj] }

/-- The `GetSelf` call observed when `getSelfScript` runs for `nulObj`. -/
def nulEvent : BridgeEvent MatExpr :=
  { before := { sceneObjects := [doorObj, nulObj], currentScriptParent := "Door\x00X" }
    call := BridgeCall.GetSelf
    results := [LuaValue.integer 1] }

/-! ## Camera synchronisation -/

/-- The element access `g_sceneObjects[index]` with an `int` index: the index is converted
to the unsigned 64-bit `size_type`; `none` is an access outside the vector. -/
def objectAt {M : Type} (objs : List (SceneObject M)) (index : Int) : Option (SceneObject M) :=
  objs.get? (index % 18446744073709551616).toNat

/-- The function `SyncSceneCameraWithView`; `updateVectors` stands for
`Camera::updateVectors` (trigonometry, kept abstract). The result is `none` when the
function indexes `g_sceneObjects` outside its bounds. -/
def SyncSceneCameraWithView {M : Type} (updateVectors : Camera → Camera) (rt : Runtime M) :
    Option (Runtime M) :=
  if rt.sceneCamera = -1 ∨ rt.sceneCamera ≥ toCInt rt.sceneObjects.length then some rt
  else
    match objectAt rt.sceneObjects rt.sceneCamera with
    | none => none
    | some camObj =>
      if camObj.type ≠ ObjectType.CAMERA then some rt
      else
        some { rt with
          camera := updateVectors
            { rt.camera with
              position := camObj.position
              yaw := camObj.rotation.y
              pitch := camObj.rotation.x
              fov := camObj.cameraFOV
              nearPlane := camObj.cameraNear
              farPlane := camObj.cameraFar } }

/-- A scene description with one cube and the scene-level camera index -2. -/
def negativeCameraScene : SceneJson :=
  { objects := cubeScene.objects, sceneCamera := some (-2) }

/-- A CAMERA-kind entity with its own field of view and clip planes. -/
def cameraObj : SceneObject MatExpr :=
  { transform := MatExpr.identity, name := "Cam", type := ObjectType.CAMERA,
    position := ⟨1, 2, 3⟩, rotation := ⟨10, 20, 0⟩, cameraFOV := 60, cameraNear := 1,
    cameraFar := 50 }

/-! # Theorems -/

/-! ## Theorems: physics integrator -/

section PhysicsTheorems

variable {M : Type}

theorem physicsStep_skip (glm : Glm M) (dt : ℚ) (obj : SceneObject M)
    (h : obj.hasPhysics = false ∨ obj.isStatic = true) : physicsStep glm dt obj = obj := by
  unfold physicsStep
  rcases h with h | h <;> simp [h]

theorem physicsStep_integrated (glm : Glm M) (dt : ℚ) (obj : SceneObject M)
    (hp : obj.hasPhysics = true) (hs : obj.isStatic = false) :
    physicsStep glm dt obj =
      (groundCollision (integratePosition (integrateVelocity obj dt) dt)).updateTransform glm := by
  unfold physicsStep
  simp [hp, hs]

theorem Vec3.add_def (a b : Vec3) : a + b = ⟨a.x + b.x, a.y + b.y, a.z + b.z⟩ := rfl

theorem Vec3.sub_def (a b : Vec3) : a - b = ⟨a.x - b.x, a.y - b.y, a.z - b.z⟩ := rfl

theorem Vec3.smul_def (v : Vec3) (k : ℚ) : v * k = ⟨v.x * k, v.y * k, v.z * k⟩ := rfl

/-- C6: for an entity with hasPhysics and not isStatic, one physics step first sets the
velocity to v' = v + (0, -9.81, 0) * dt (x and z unchanged), then sets the pre-collision
position to p' = p + v' * dt with the already updated velocity, and the step is the ground
collision and transform recompute applied to that integrated state. -/
theorem physicsStep_semi_implicit_euler (glm : Glm M) (dt : ℚ) (obj : SceneObject M)
    (hp : obj.hasPhysics = true) (hs : obj.isStatic = false) :
    (integrateVelocity obj dt).velocity = obj.velocity + (⟨0, -981 / 100, 0⟩ : Vec3) * dt ∧
    (integrateVelocity obj dt).velocity =
      ⟨obj.velocity.x, obj.velocity.y - 981 / 100 * dt, obj.velocity.z⟩ ∧
    (integratePosition (integrateVelocity obj dt) dt).position =
      obj.position + (integrateVelocity obj dt).velocity * dt ∧
    (integratePosition (integrateVelocity obj dt) dt).position =
      ⟨obj.position.x + obj.velocity.x * dt,
        obj.position.y + (obj.velocity.y - 981 / 100 * dt) * dt,
        obj.position.z + obj.velocity.z * dt⟩ ∧
    (integratePosition (integrateVelocity obj dt) dt).velocity =
      (integrateVelocity obj dt).velocity ∧
    physicsStep glm dt obj =
      (groundCollision
        { obj with
          velocity := obj.velocity + gravity * dt
          position := obj.position + (obj.velocity + gravity * dt) * dt }).updateTransform glm := by
  refine ⟨rfl, ?_, rfl, ?_, rfl, ?_⟩
  · simp only [integrateVelocity, gravity, Vec3.add_def, Vec3.smul_def, Vec3.mk.injEq]
    refine ⟨by ring, by ring, by ring⟩
  · simp only [integratePosition, integrateVelocity, gravity, Vec3.add_def, Vec3.smul_def,
      Vec3.mk.injEq]
    refine ⟨by ring, by ring, by ring⟩
  · rw [physicsStep_integrated glm dt obj hp hs]
    rfl

theorem physicsStep_semi_implicit_euler_witness :
    (integratePosition (integrateVelocity restingCube 1) 1).position = ⟨0, -981 / 100, 0⟩ ∧
    (integratePosition (integrateVelocity restingCube 1) 1).velocity = ⟨0, -981 / 100, 0⟩ := by
  have h := physicsStep_semi_implicit_euler symbolicGlm 1 restingCube rfl rfl
  refine ⟨?_, ?_⟩
  · rw [h.2.2.2.1]; simp [restingCube, Vec3.splat]; norm_num
  · rw [h.2.2.2.2.1, h.2.1]; simp [restingCube, Vec3.splat]; norm_num

theorem groundCollision_position_y_ge (obj : SceneObject M) :
    -1 ≤ (groundCollision obj).position.y := by
  unfold groundCollision
  split
  · simp
  · linarith

theorem physicsStep_flags (glm : Glm M) (dt : ℚ) (obj : SceneObject M) :
    (physicsStep glm dt obj).hasPhysics = obj.hasPhysics ∧
    (physicsStep glm dt obj).isStatic = obj.isStatic := by
  unfold physicsStep groundCollision integratePosition integrateVelocity
    SceneObject.updateTransform
  split
  · exact ⟨rfl, rfl⟩
  · split <;> exact ⟨rfl, rfl⟩

/-- C7: after one physics step over any store and any dt, every integrated entity
(hasPhysics and not isStatic) has position.y at least -1; an integrated entity starting at
position.y = 0 with zero velocity ends a dt = 1 step at position.y = -1 (not -9.81). -/
theorem UpdatePhysics_floor (glm : Glm M) (dt : ℚ) (objs : List (SceneObject M)) :
    (∀ e ∈ UpdatePhysics glm dt objs, e.hasPhysics = true → e.isStatic = false →
      -1 ≤ e.position.y) ∧
    (∀ obj : SceneObject M, obj.hasPhysics = true → obj.isStatic = false →
      obj.position.y = 0 → obj.velocity = ⟨0, 0, 0⟩ →
      (physicsStep glm 1 obj).position.y = -1 ∧
      (integratePosition (integrateVelocity obj 1) 1).position.y = -981 / 100) := by
  constructor
  · intro e he hp hs
    simp only [UpdatePhysics, List.mem_map] at he
    obtain ⟨obj, -, rfl⟩ := he
    have hf := physicsStep_flags glm dt obj
    rw [hf.1] at hp
    rw [hf.2] at hs
    rw [physicsStep_integrated glm dt obj hp hs]
    exact groundCollision_position_y_ge _
  · intro obj hp hs hy hv
    have hpre : (integratePosition (integrateVelocity obj 1) 1).position.y = -981 / 100 := by
      simp only [integratePosition, integrateVelocity, gravity, Vec3.add_def, Vec3.smul_def,
        hy, hv]
      norm_num
    refine ⟨?_, hpre⟩
    rw [physicsStep_integrated glm 1 obj hp hs]
    simp only [SceneObject.updateTransform, groundCollision, hpre]
    norm_num

theorem UpdatePhysics_floor_witness :
    (physicsStep symbolicGlm 1 restingCube).position.y = -1 :=
  ((UpdatePhysics_floor symbolicGlm 1 [restingCube]).2 restingCube rfl rfl rfl rfl).1

end PhysicsTheorems

section PhysicsTheorems2

variable {M : Type}

/-- C8: in a physics step of an integrated entity, when the integrated position has
y < -1 the step ends with position.y = -1 and velocity.y = -0.5 * v'.y (v' the velocity
after the gravity update of the same step), with position.x, position.z, velocity.x and
velocity.z the integrated values; when the integrated position has y >= -1 the collision
branch changes nothing. -/
theorem physicsStep_ground_collision (glm : Glm M) (dt : ℚ) (obj : SceneObject M)
    (hp : obj.hasPhysics = true) (hs : obj.isStatic = false) :
    ((integratePosition (integrateVelocity obj dt) dt).position.y < -1 →
      (physicsStep glm dt obj).position =
        ⟨(integratePosition (integrateVelocity obj dt) dt).position.x, -1,
          (integratePosition (integrateVelocity obj dt) dt).position.z⟩ ∧
      (physicsStep glm dt obj).velocity =
        ⟨(integrateVelocity obj dt).velocity.x, -(1 / 2) * (integrateVelocity obj dt).velocity.y,
          (integrateVelocity obj dt).velocity.z⟩) ∧
    (-1 ≤ (integratePosition (integrateVelocity obj dt) dt).position.y →
      groundCollision (integratePosition (integrateVelocity obj dt) dt) =
        integratePosition (integrateVelocity obj dt) dt ∧
      (physicsStep glm dt obj).position =
        (integratePosition (integrateVelocity obj dt) dt).position ∧
      (physicsStep glm dt obj).velocity = (integrateVelocity obj dt).velocity) := by
  rw [physicsStep_integrated glm dt obj hp hs]
  constructor
  · intro h
    simp only [SceneObject.updateTransform, groundCollision, h, if_true]
    refine ⟨trivial, ?_⟩
    simp only [integratePosition, Vec3.mk.injEq, true_and, and_true]
    ring
  · intro h
    have h' : ¬ (integratePosition (integrateVelocity obj dt) dt).position.y < -1 := not_lt.mpr h
    simp only [SceneObject.updateTransform, groundCollision, h', if_false]
    exact ⟨trivial, trivial, rfl⟩

theorem physicsStep_ground_collision_witness :
    (physicsStep symbolicGlm 1 restingCube).position = ⟨0, -1, 0⟩ ∧
    (physicsStep symbolicGlm 1 restingCube).velocity = ⟨0, 981 / 200, 0⟩ := by
  have hy : (integratePosition (integrateVelocity restingCube 1) 1).position.y < -1 := by
    simp [integratePosition, integrateVelocity, restingCube, gravity, Vec3.add_def,
      Vec3.smul_def, Vec3.splat]
    norm_num
  have h := (physicsStep_ground_collision symbolicGlm 1 restingCube rfl rfl).1 hy
  refine ⟨?_, ?_⟩
  · rw [h.1]
    simp [integratePosition, integrateVelocity, restingCube, gravity, Vec3.add_def,
      Vec3.smul_def, Vec3.splat]
  · rw [h.2]
    simp [integrateVelocity, restingCube, gravity, Vec3.add_def, Vec3.smul_def, Vec3.splat]
    norm_num

theorem physicsStep_frame (glm : Glm M) (dt : ℚ) (e : SceneObject M) :
    physicsStep glm dt e =
      { e with
        velocity := (physicsStep glm dt e).velocity
        position := (physicsStep glm dt e).position
        transform := (physicsStep glm dt e).transform } := by
  unfold physicsStep
  split
  · rfl
  · unfold groundCollision integratePosition integrateVelocity SceneObject.updateTransform
    split <;> rfl

/-- C10: the physics step keeps the number and order of entities; an entity with
hasPhysics = false or isStatic = true is left completely unchanged, and an integrated
entity differs from its previous value in no field other than velocity, position and
transform. -/
theorem UpdatePhysics_frame (glm : Glm M) (dt : ℚ) (objs : List (SceneObject M)) :
    (UpdatePhysics glm dt objs).length = objs.length ∧
    ∀ (i : Nat) (e : SceneObject M), objs.get? i = some e →
      ∃ e' : SceneObject M, (UpdatePhysics glm dt objs).get? i = some e' ∧
        (e.hasPhysics = false ∨ e.isStatic = true → e' = e) ∧
        e' = { e with velocity := e'.velocity, position := e'.position,
                      transform := e'.transform } := by
  refine ⟨by simp [UpdatePhysics], ?_⟩
  intro i e hi
  refine ⟨physicsStep glm dt e, ?_, physicsStep_skip glm dt e, physicsStep_frame glm dt e⟩
  simp [UpdatePhysics, List.get?_eq_getElem?, List.getElem?_map] at hi ⊢
  simp [hi]

theorem UpdatePhysics_frame_witness :
    ∃ e' : SceneObject MatExpr,
      (UpdatePhysics symbolicGlm 1 [restingCube]).get? 0 = some e' ∧
      e' = { restingCube with velocity := e'.velocity, position := e'.position,
                              transform := e'.transform } := by
  obtain ⟨e', h1, -, h3⟩ := (UpdatePhysics_frame symbolicGlm 1 [restingCube]).2 0 restingCube rfl
  exact ⟨e', h1, h3⟩

theorem iterate_step {α : Type} (f : α → α) (n : Nat) (x : α) : f^[n + 1] x = f (f^[n] x) :=
  Function.iterate_succ_apply' f n x

theorem yStep_iterate_29 : (yStep (1 / 10))^[29] (5, 0) = (-1, 6867 / 16000) := by
  have h0 : (yStep (1 / 10))^[0] (5, 0) = (5, 0) := rfl
  have h1 : (yStep (1 / 10))^[1] (5, 0) = (49019 / 10000, -981 / 1000) := by
    rw [iterate_step, h0]; norm_num [yStep]
  have h2 : (yStep (1 / 10))^[2] (5, 0) = (47057 / 10000, -981 / 500) := by
    rw [iterate_step, h1]; norm_num [yStep]
  have h3 : (yStep (1 / 10))^[3] (5, 0) = (22057 / 5000, -2943 / 1000) := by
    rw [iterate_step, h2]; norm_num [yStep]
  have h4 : (yStep (1 / 10))^[4] (5, 0) = (4019 / 1000, -981 / 250) := by
    rw [iterate_step, h3]; norm_num [yStep]
  have h5 : (yStep (1 / 10))^[5] (5, 0) = (7057 / 2000, -981 / 200) := by
    rw [iterate_step, h4]; norm_num [yStep]
  have h6 : (yStep (1 / 10))^[6] (5, 0) = (29399 / 10000, -2943 / 500) := by
    rw [iterate_step, h5]; norm_num [yStep]
  have h7 : (yStep (1 / 10))^[7] (5, 0) = (5633 / 2500, -6867 / 1000) := by
    rw [iterate_step, h6]; norm_num [yStep]
  have h8 : (yStep (1 / 10))^[8] (5, 0) = (3671 / 2500, -981 / 125) := by
    rw [iterate_step, h7]; norm_num [yStep]
  have h9 : (yStep (1 / 10))^[9] (5, 0) = (1171 / 2000, -8829 / 1000) := by
    rw [iterate_step, h8]; norm_num [yStep]
  have h10 : (yStep (1 / 10))^[10] (5, 0) = (-791 / 2000, -981 / 100) := by
    rw [iterate_step, h9]; norm_num [yStep]
  have h11 : (yStep (1 / 10))^[11] (5, 0) = (-1, 10791 / 2000) := by
    rw [iterate_step, h10]; norm_num [yStep]
  have h12 : (yStep (1 / 10))^[12] (5, 0) = (-11171 / 20000, 8829 / 2000) := by
    rw [iterate_step, h11]; norm_num [yStep]
  have h13 : (yStep (1 / 10))^[13] (5, 0) = (-269 / 1250, 6867 / 2000) := by
    rw [iterate_step, h12]; norm_num [yStep]
  have h14 : (yStep (1 / 10))^[14] (5, 0) = (601 / 20000, 981 / 400) := by
    rw [iterate_step, h13]; norm_num [yStep]
  have h15 : (yStep (1 / 10))^[15] (5, 0) = (443 / 2500, 2943 / 2000) := by
    rw [iterate_step, h14]; norm_num [yStep]
  have h16 : (yStep (1 / 10))^[16] (5, 0) = (181 / 800, 981 / 2000) := by
    rw [iterate_step, h15]; norm_num [yStep]
  have h17 : (yStep (1 / 10))^[17] (5, 0) = (443 / 2500, -981 / 2000) := by
    rw [iterate_step, h16]; norm_num [yStep]
  have h18 : (yStep (1 / 10))^[18] (5, 0) = (601 / 20000, -2943 / 2000) := by
    rw [iterate_step, h17]; norm_num [yStep]
  have h19 : (yStep (1 / 10))^[19] (5, 0) = (-269 / 1250, -981 / 400) := by
    rw [iterate_step, h18]; norm_num [yStep]
  have h20 : (yStep (1 / 10))^[20] (5, 0) = (-11171 / 20000, -6867 / 2000) := by
    rw [iterate_step, h19]; norm_num [yStep]
  have h21 : (yStep (1 / 10))^[21] (5, 0) = (-1, -8829 / 2000) := by
    rw [iterate_step, h20]; norm_num [yStep]
  have h22 : (yStep (1 / 10))^[22] (5, 0) = (-1, 10791 / 4000) := by
    rw [iterate_step, h21]; norm_num [yStep]
  have h23 : (yStep (1 / 10))^[23] (5, 0) = (-33133 / 40000, 6867 / 4000) := by
    rw [iterate_step, h22]; norm_num [yStep]
  have h24 : (yStep (1 / 10))^[24] (5, 0) = (-3019 / 4000, 2943 / 4000) := by
    rw [iterate_step, h23]; norm_num [yStep]
  have h25 : (yStep (1 / 10))^[25] (5, 0) = (-31171 / 40000, -981 / 4000) := by
    rw [iterate_step, h24]; norm_num [yStep]
  have h26 : (yStep (1 / 10))^[26] (5, 0) = (-9019 / 10000, -981 / 800) := by
    rw [iterate_step, h25]; norm_num [yStep]
  have h27 : (yStep (1 / 10))^[27] (5, 0) = (-1, 8829 / 8000) := by
    rw [iterate_step, h26]; norm_num [yStep]
  have h28 : (yStep (1 / 10))^[28] (5, 0) = (-79019 / 80000, 981 / 8000) := by
    rw [iterate_step, h27]; norm_num [yStep]
  have h29 : (yStep (1 / 10))^[29] (5, 0) = (-1, 6867 / 16000) := by
    rw [iterate_step, h28]; norm_num [yStep]
  exact h29

theorem yStep_rest (s : ℚ × ℚ) (h : s.1 = -1 ∧ 0 ≤ s.2 ∧ s.2 ≤ 981 / 1000) :
    (yStep (1 / 10) s).1 = -1 ∧ 0 ≤ (yStep (1 / 10) s).2 ∧ (yStep (1 / 10) s).2 ≤ 981 / 1000 := by
  obtain ⟨p, v⟩ := s
  obtain ⟨h1, h2, h3⟩ := h
  simp only at h1 h2 h3
  subst h1
  by_cases hlt : -1 + (v + -981 / 100 * (1 / 10)) * (1 / 10) < -1
  · have hs : yStep (1 / 10) (-1, v) = (-1, -(v + -981 / 100 * (1 / 10)) * (1 / 2)) := by
      simp only [yStep, hlt, if_true]
    rw [hs]
    refine ⟨rfl, ?_, ?_⟩ <;> simp only <;> linarith
  · have hs : yStep (1 / 10) (-1, v) =
        (-1 + (v + -981 / 100 * (1 / 10)) * (1 / 10), v + -981 / 100 * (1 / 10)) := by
      simp only [yStep, hlt, if_false]
    have hv : v = 981 / 1000 := by linarith
    rw [hs, hv]
    norm_num

theorem yStep_iterate_rest (n : Nat) (h : 29 ≤ n) :
    ((yStep (1 / 10))^[n] (5, 0)).1 = -1 ∧ 0 ≤ ((yStep (1 / 10))^[n] (5, 0)).2 ∧
      ((yStep (1 / 10))^[n] (5, 0)).2 ≤ 981 / 1000 := by
  induction n, h using Nat.le_induction with
  | base => rw [yStep_iterate_29]; norm_num
  | succ n _ ih => rw [iterate_step]; exact yStep_rest _ ih

theorem physicsStep_yStep (glm : Glm M) (dt : ℚ) (obj : SceneObject M)
    (hp : obj.hasPhysics = true) (hs : obj.isStatic = false) :
    ((physicsStep glm dt obj).position.y, (physicsStep glm dt obj).velocity.y) =
      yStep dt (obj.position.y, obj.velocity.y) := by
  rw [physicsStep_integrated glm dt obj hp hs]
  simp only [SceneObject.updateTransform, groundCollision, integratePosition, integrateVelocity,
    gravity, Vec3.add_def, Vec3.smul_def, yStep]
  split <;> rfl

theorem physicsStep_iterate_yStep (glm : Glm M) (dt : ℚ) (obj : SceneObject M)
    (hp : obj.hasPhysics = true) (hs : obj.isStatic = false) (n : Nat) :
    ((physicsStep glm dt)^[n] obj).hasPhysics = true ∧
    ((physicsStep glm dt)^[n] obj).isStatic = false ∧
    (((physicsStep glm dt)^[n] obj).position.y, ((physicsStep glm dt)^[n] obj).velocity.y) =
      (yStep dt)^[n] (obj.position.y, obj.velocity.y) := by
  induction n with
  | zero => exact ⟨hp, hs, rfl⟩
  | succ n ih =>
    obtain ⟨ihp, ihs, ihy⟩ := ih
    rw [iterate_step, iterate_step]
    have hf := physicsStep_flags glm dt ((physicsStep glm dt)^[n] obj)
    refine ⟨hf.1.trans ihp, hf.2.trans ihs, ?_⟩
    rw [physicsStep_yStep glm dt _ ihp ihs, ihy]

theorem UpdatePhysics_iterate_singleton (glm : Glm M) (dt : ℚ) (obj : SceneObject M) (n : Nat) :
    (UpdatePhysics glm dt)^[n] [obj] = [(physicsStep glm dt)^[n] obj] := by
  induction n with
  | zero => rfl
  | succ n ih => rw [iterate_step, iterate_step, ih]; rfl

/-- C9: a single physics entity (hasPhysics, not static) starting at position (0, 5, 0)
with zero velocity, stepped with fixed dt = 0.1: after every tick count n >= 200 the store
still holds that one entity and its position.y is exactly -1, hence within
[-1, -1 + epsilon] for every tolerance epsilon >= 0. -/
theorem UpdatePhysics_cube_settles (glm : Glm M) (obj : SceneObject M)
    (hp : obj.hasPhysics = true) (hs : obj.isStatic = false)
    (hpos : obj.position = ⟨0, 5, 0⟩) (hvel : obj.velocity = ⟨0, 0, 0⟩)
    (n : Nat) (hn : 200 ≤ n) :
    ∃ e : SceneObject M, (UpdatePhysics glm (1 / 10))^[n] [obj] = [e] ∧
      e.position.y = -1 ∧
      ∀ epsilon : ℚ, 0 ≤ epsilon → -1 ≤ e.position.y ∧ e.position.y ≤ -1 + epsilon := by
  refine ⟨(physicsStep glm (1 / 10))^[n] obj, UpdatePhysics_iterate_singleton glm _ obj n, ?_⟩
  have hit := (physicsStep_iterate_yStep glm (1 / 10) obj hp hs n).2.2
  rw [hpos, hvel] at hit
  have hrest := (yStep_iterate_rest n (by omega)).1
  have hy : ((physicsStep glm (1 / 10))^[n] obj).position.y = -1 := by
    have := congrArg Prod.fst hit
    exact this.trans hrest
  refine ⟨hy, ?_⟩
  intro epsilon he
  rw [hy]
  constructor <;> linarith

theorem UpdatePhysics_cube_settles_witness :
    ∃ e : SceneObject MatExpr, (UpdatePhysics symbolicGlm (1 / 10))^[200] [dropCube] = [e] ∧
      e.position.y = -1 := by
  obtain ⟨e, h1, h2, -⟩ :=
    UpdatePhysics_cube_settles symbolicGlm dropCube rfl rfl rfl rfl 200 (le_refl 200)
  exact ⟨e, h1, h2⟩

end PhysicsTheorems2

/-! ## Theorems: transform invariant -/

section TransformTheorems

variable {M : Type}

theorem updateTransform_inv (glm : Glm M) (obj : SceneObject M) :
    TransformInv glm (obj.updateTransform glm) := rfl

theorem mem_modifyAt (f : SceneObject M → SceneObject M) (objs : List (SceneObject M))
    (i : Nat) (e : SceneObject M) (he : e ∈ modifyAt f objs i) :
    e ∈ objs ∨ ∃ e0 ∈ objs, e = f e0 := by
  induction objs generalizing i with
  | nil => simp [modifyAt] at he
  | cons obj rest ih =>
    cases i with
    | zero =>
      simp only [modifyAt, List.mem_cons] at he
      rcases he with he | he
      · exact Or.inr ⟨obj, List.mem_cons_self _ _, he⟩
      · exact Or.inl (List.mem_cons_of_mem _ he)
    | succ i =>
      simp only [modifyAt, List.mem_cons] at he
      rcases he with he | he
      · exact Or.inl (he ▸ List.mem_cons_self _ _)
      · rcases ih i he with h | ⟨e0, h0, h1⟩
        · exact Or.inl (List.mem_cons_of_mem _ h)
        · exact Or.inr ⟨e0, List.mem_cons_of_mem _ h0, h1⟩

theorem modifyAt_forall (P : SceneObject M → Prop) (f : SceneObject M → SceneObject M)
    (objs : List (SceneObject M)) (i : Nat) (h : ∀ e ∈ objs, P e)
    (hf : ∀ e, P e → P (f e)) : ∀ e ∈ modifyAt f objs i, P e := by
  intro e he
  rcases mem_modifyAt f objs i e he with h1 | ⟨e0, h0, rfl⟩
  · exact h e h1
  · exact hf e0 (h e0 h0)

theorem physicsStep_inv (glm : Glm M) (dt : ℚ) (obj : SceneObject M)
    (h : TransformInv glm obj) : TransformInv glm (physicsStep glm dt obj) := by
  unfold physicsStep
  split
  · exact h
  · exact updateTransform_inv glm _

theorem animationStep_inv (glm : Glm M) (slerpEuler : Quat → Quat → ℚ → Vec3) (dt : ℚ)
    (obj : SceneObject M) (h : TransformInv glm obj) :
    TransformInv glm (animationStep glm slerpEuler dt obj) := by
  unfold animationStep
  split
  · exact h
  · split
    · exact h
    · split
      · exact h
      · split
        · exact h
        · split
          · exact h
          · exact updateTransform_inv glm _

theorem loadObject_inv (glm : Glm M) (readFile : String → Option MeshImport)
    (objJson : ObjJson) : TransformInv glm (loadObject glm readFile objJson) :=
  updateTransform_inv glm _

theorem loadObjects_inv (glm : Glm M) (readFile : String → Option MeshImport)
    (objJsons : List ObjJson) (acc : List (SceneObject M) × Int)
    (h : ∀ e ∈ acc.1, TransformInv glm e) :
    ∀ e ∈ (loadObjects glm readFile objJsons acc).1, TransformInv glm e := by
  induction objJsons generalizing acc with
  | nil => exact h
  | cons objJson rest ih =>
    obtain ⟨objs, cam⟩ := acc
    simp only [loadObjects]
    apply ih
    intro e he
    simp only [List.mem_append, List.mem_singleton] at he
    rcases he with he | he
    · exact h e he
    · rw [he]; exact loadObject_inv glm readFile objJson

theorem callBridge_inv (glm : Glm M) (rt : Runtime M) (c : BridgeCall)
    (h : ∀ e ∈ rt.sceneObjects, TransformInv glm e) :
    ∀ e ∈ (callBridge glm rt c).1.sceneObjects, TransformInv glm e := by
  cases c <;> simp only [callBridge, Runtime.withObjects] <;> try exact h
  all_goals
    first
      | (simp only [Lua_SetPosition, Lua_Move, Lua_SetRotation, Lua_Rotate, Lua_SetScale]
         split
         · exact h
         · exact modifyAt_forall _ _ _ _ h (fun e _ => updateTransform_inv glm _))
      | (simp only [Lua_SetVelocity, Lua_AddVelocity, Lua_SetVisible, Lua_SetColor,
           Lua_PlayAnimation, Lua_StopAnimation]
         split
         · exact h
         · exact modifyAt_forall _ _ _ _ h (fun e he => he))

/-- C1: with Inv(e) the statement that e.transform is the composition
Translate * RotateX * RotateY * RotateZ * Scale of the abstract builders on e's current
position, rotation and scale: every entity satisfies Inv after a scene load, and the
physics step, the animation sampler step and every bridge call (SetPosition, Move,
SetRotation, Rotate, SetScale among them) keep Inv true for every entity of the store. -/
theorem transform_invariant (glm : Glm M) (slerpEuler : Quat → Quat → ℚ → Vec3)
    (readFile : String → Option MeshImport) (sceneJson : SceneJson) (rt : Runtime M) (dt : ℚ)
    (h : ∀ e ∈ rt.sceneObjects, TransformInv glm e) :
    (∀ rt0 : Runtime M,
      ∀ e ∈ (LoadScene glm readFile (some sceneJson) rt0).sceneObjects, TransformInv glm e) ∧
    (∀ e ∈ UpdatePhysics glm dt rt.sceneObjects, TransformInv glm e) ∧
    (∀ e ∈ UpdateAnimations glm slerpEuler dt rt.sceneObjects, TransformInv glm e) ∧
    (∀ objID x y z, ∀ e ∈ (Lua_SetPosition glm rt.sceneObjects objID x y z).1,
      TransformInv glm e) ∧
    (∀ objID dx dy dz, ∀ e ∈ (Lua_Move glm rt.sceneObjects objID dx dy dz).1,
      TransformInv glm e) ∧
    (∀ objID x y z, ∀ e ∈ (Lua_SetRotation glm rt.sceneObjects objID x y z).1,
      TransformInv glm e) ∧
    (∀ objID dx dy dz, ∀ e ∈ (Lua_Rotate glm rt.sceneObjects objID dx dy dz).1,
      TransformInv glm e) ∧
    (∀ objID x y z, ∀ e ∈ (Lua_SetScale glm rt.sceneObjects objID x y z).1,
      TransformInv glm e) ∧
    (∀ c : BridgeCall, ∀ e ∈ (callBridge glm rt c).1.sceneObjects, TransformInv glm e) := by
  refine ⟨?_, ?_, ?_, ?_, ?_, ?_, ?_, ?_, ?_⟩
  · intro rt0
    simp only [LoadScene]
    exact loadObjects_inv glm readFile sceneJson.objects ([], rt0.sceneCamera)
      (fun e he => absurd he (List.not_mem_nil e))
  · intro e he
    simp only [UpdatePhysics, List.mem_map] at he
    obtain ⟨obj, hobj, rfl⟩ := he
    exact physicsStep_inv glm dt obj (h obj hobj)
  · intro e he
    simp only [UpdateAnimations, List.mem_map] at he
    obtain ⟨obj, hobj, rfl⟩ := he
    exact animationStep_inv glm slerpEuler dt obj (h obj hobj)
  · intro objID x y z
    exact callBridge_inv glm rt (BridgeCall.SetPosition objID x y z) h
  · intro objID x y z
    exact callBridge_inv glm rt (BridgeCall.Move objID x y z) h
  · intro objID x y z
    exact callBridge_inv glm rt (BridgeCall.SetRotation objID x y z) h
  · intro objID x y z
    exact callBridge_inv glm rt (BridgeCall.Rotate objID x y z) h
  · intro objID x y z
    exact callBridge_inv glm rt (BridgeCall.SetScale objID x y z) h
  · intro c
    exact callBridge_inv glm rt c h

theorem transform_invariant_witness :
    TransformInv symbolicGlm (physicsStep symbolicGlm 1 loadedCube) ∧
    (∀ e ∈ (LoadScene symbolicGlm (fun _ => none) (some cubeScene) {}).sceneObjects,
      TransformInv symbolicGlm e) ∧
    (Lua_SetPosition symbolicGlm [loadedCube] 0 1 2 3).1.map (fun e => e.transform) =
      [composeTransform symbolicGlm ⟨1, 2, 3⟩ (Vec3.splat 0) (Vec3.splat 1)] := by
  have hInv : ∀ e ∈ ({ sceneObjects := [loadedCube] } : Runtime MatExpr).sceneObjects,
      TransformInv symbolicGlm e := by
    intro e he
    rw [List.mem_singleton.mp he]
    exact updateTransform_inv symbolicGlm restingCube
  have h := transform_invariant symbolicGlm (fun q _ _ => ⟨q.x, q.y, q.z⟩) (fun _ => none)
    cubeScene { sceneObjects := [loadedCube] } 1 hInv
  refine ⟨h.2.1 _ (by simp [UpdatePhysics]), h.1 {}, ?_⟩
  have h3 := h.2.2.2.1 0 1 2 3
  simp only [Lua_SetPosition, toCInt, handleOutOfRange, List.length_singleton] at h3 ⊢
  norm_num [modifyAt] at h3 ⊢
  exact h3

end TransformTheorems

/-! ## Theorems: name lookup -/

section LookupTheorems

variable {M : Type}

theorem findByNameFrom_some (name : String) (objs : List (SceneObject M)) (k i : Nat)
    (h : findByNameFrom name k objs = some i) :
    ∃ j e, i = k + j ∧ objs.get? j = some e ∧ e.name = name ∧
      ∀ j0 e0, j0 < j → objs.get? j0 = some e0 → e0.name ≠ name := by
  induction objs generalizing k with
  | nil => simp [findByNameFrom] at h
  | cons obj rest ih =>
    simp only [findByNameFrom] at h
    split at h
    · rename_i hname
      refine ⟨0, obj, ?_, rfl, hname, ?_⟩
      · simp only [Option.some.injEq] at h
        omega
      · intro j0 e0 hj
        omega
    · rename_i hname
      obtain ⟨j, e, hi, hget, hn, hmin⟩ := ih (k + 1) h
      refine ⟨j + 1, e, by omega, hget, hn, ?_⟩
      intro j0 e0 hj hget0
      cases j0 with
      | zero =>
        simp only [List.get?_cons_zero, Option.some.injEq] at hget0
        rw [← hget0]
        exact hname
      | succ j0 => exact hmin j0 e0 (by omega) hget0

theorem findByNameFrom_none (name : String) (objs : List (SceneObject M)) (k : Nat)
    (h : findByNameFrom name k objs = none) : ∀ e ∈ objs, e.name ≠ name := by
  induction objs generalizing k with
  | nil => intro e he; exact absurd he (List.not_mem_nil e)
  | cons obj rest ih =>
    simp only [findByNameFrom] at h
    split at h
    · simp at h
    · rename_i hname
      intro e he
      rcases List.mem_cons.mp he with he | he
      · rw [he]; exact hname
      · exact ih (k + 1) h e he

theorem findByNameFrom_congr (name : String) (objs objs0 : List (SceneObject M)) (k : Nat)
    (h : objs.map (fun e => e.name) = objs0.map (fun e => e.name)) :
    findByNameFrom name k objs = findByNameFrom name k objs0 := by
  induction objs generalizing objs0 k with
  | nil =>
    cases objs0 with
    | nil => rfl
    | cons _ _ => simp at h
  | cons obj rest ih =>
    cases objs0 with
    | nil => simp at h
    | cons obj0 rest0 =>
      simp only [List.map_cons, List.cons.injEq] at h
      simp only [findByNameFrom, h.1]
      rw [ih rest0 (k + 1) h.2]

/-- C3: GetObjectByName returns the least index whose entity is named s when some entity
has that name, and nil when none has; with two entities both named "Dup" it returns the
lower handle; the result is determined by s and the sequence of entity names alone. -/
theorem Lua_GetObjectByName_first_match (objs : List (SceneObject M)) (s : String) :
    ((∃ e ∈ objs, e.name = s) →
      ∃ i e, objs.get? i = some e ∧ e.name = s ∧
        (∀ j e0, j < i → objs.get? j = some e0 → e0.name ≠ s) ∧
        Lua_GetObjectByName objs s = [LuaValue.integer i]) ∧
    ((∀ e ∈ objs, e.name ≠ s) → Lua_GetObjectByName objs s = [LuaValue.nil]) ∧
    (∀ (pre mid post : List (SceneObject M)) (a b : SceneObject M),
      objs = pre ++ a :: mid ++ b :: post → a.name = "Dup" → b.name = "Dup" →
      (∀ e ∈ pre, e.name ≠ "Dup") →
      Lua_GetObjectByName objs "Dup" = [LuaValue.integer pre.length]) ∧
    (∀ objs0 : List (SceneObject M),
      objs0.map (fun e => e.name) = objs.map (fun e => e.name) →
      Lua_GetObjectByName objs0 s = Lua_GetObjectByName objs s) := by
  have key : ∀ (name : String) (i : Nat) (e : SceneObject M), objs.get? i = some e →
      e.name = name → (∀ j e0, j < i → objs.get? j = some e0 → e0.name ≠ name) →
      Lua_GetObjectByName objs name = [LuaValue.integer i] := by
    intro name i e hget hname hmin
    unfold Lua_GetObjectByName
    cases hfind : findByNameFrom name 0 objs with
    | none =>
      exact absurd hname (findByNameFrom_none name objs 0 hfind e (List.get?_mem hget))
    | some i0 =>
      obtain ⟨j, e1, hi0, hget1, hname1, hmin1⟩ := findByNameFrom_some name objs 0 i0 hfind
      have hj : j = i := by
        rcases Nat.lt_trichotomy j i with hlt | heq | hgt
        · exact absurd hname1 (hmin j e1 hlt hget1)
        · exact heq
        · exact absurd hname (hmin1 i e hgt hget)
      simp only [hi0, hj, Nat.zero_add]
  refine ⟨?_, ?_, ?_, ?_⟩
  · rintro ⟨e, he, hname⟩
    cases hfind : findByNameFrom s 0 objs with
    | none => exact absurd hname (findByNameFrom_none s objs 0 hfind e he)
    | some i =>
      obtain ⟨j, e1, hi, hget1, hname1, hmin1⟩ := findByNameFrom_some s objs 0 i hfind
      exact ⟨j, e1, hget1, hname1, hmin1, key s j e1 hget1 hname1 hmin1⟩
  · intro hnone
    unfold Lua_GetObjectByName
    cases hfind : findByNameFrom s 0 objs with
    | none => rfl
    | some i =>
      obtain ⟨j, e1, -, hget1, hname1, -⟩ := findByNameFrom_some s objs 0 i hfind
      exact absurd hname1 (hnone e1 (List.get?_mem hget1))
  · intro pre mid post a b hobjs ha _ hpre
    refine key "Dup" pre.length a ?_ ha ?_
    · rw [hobjs, List.append_assoc, List.get?_eq_getElem?, List.getElem?_append_right (le_refl _)]
      simp
    · intro j e0 hj hget0
      rw [hobjs, List.append_assoc, List.get?_eq_getElem?, List.getElem?_append_left hj] at hget0
      exact hpre e0 (List.getElem?_mem hget0)
  · intro objs0 hnames
    unfold Lua_GetObjectByName
    rw [findByNameFrom_congr s objs0 objs 0 hnames]

theorem Lua_GetObjectByName_first_match_witness :
    Lua_GetObjectByName dupStore "Dup" = [LuaValue.integer 1] ∧
    Lua_GetObjectByName dupStore "Door" = [LuaValue.nil] := by
  have h := Lua_GetObjectByName_first_match dupStore
  refine ⟨?_, ?_⟩
  · exact (h "Dup").2.2.1 [floorObj] [] [] dupA dupB rfl rfl rfl (by decide)
  · exact (h "Door").2.1 (by decide)

end LookupTheorems

/-! ## Theorems: the current-self context during a script run -/

section ScriptTheorems

variable {M : Type}

theorem GetObjectByName_least (objs : List (SceneObject M)) (name : String) (i : Nat)
    (e : SceneObject M) (hget : objs.get? i = some e) (hname : e.name = name)
    (hmin : ∀ j e0, j < i → objs.get? j = some e0 → e0.name ≠ name) :
    Lua_GetObjectByName objs name = [LuaValue.integer i] := by
  unfold Lua_GetObjectByName
  cases hfind : findByNameFrom name 0 objs with
  | none =>
    exact absurd hname (findByNameFrom_none name objs 0 hfind e (List.get?_mem hget))
  | some i0 =>
    obtain ⟨j, e1, hi0, hget1, hname1, hmin1⟩ := findByNameFrom_some name objs 0 i0 hfind
    have hj : j = i := by
      rcases Nat.lt_trichotomy j i with hlt | heq | hgt
      · exact absurd hname1 (hmin j e1 hlt hget1)
      · exact heq
      · exact absurd hname (hmin1 i e hgt hget)
    simp only [hi0, hj, Nat.zero_add]

theorem GetObjectByName_exists (objs : List (SceneObject M)) (name : String) (i : Nat)
    (e : SceneObject M) (hget : objs.get? i = some e) (hname : e.name = name) :
    ∃ k e1, k ≤ i ∧ objs.get? k = some e1 ∧ e1.name = name ∧
      (∀ j e0, j < k → objs.get? j = some e0 → e0.name ≠ name) ∧
      Lua_GetObjectByName objs name = [LuaValue.integer k] := by
  cases hfind : findByNameFrom name 0 objs with
  | none =>
    exact absurd hname (findByNameFrom_none name objs 0 hfind e (List.get?_mem hget))
  | some i0 =>
    obtain ⟨j, e1, -, hget1, hname1, hmin1⟩ := findByNameFrom_some name objs 0 i0 hfind
    refine ⟨j, e1, ?_, hget1, hname1, hmin1, GetObjectByName_least objs name j e1 hget1 hname1 hmin1⟩
    by_contra hlt
    exact absurd hname (hmin1 i e (by omega) hget)

theorem Lua_GetSelf_eq (objs : List (SceneObject M)) (name : String) (h : name ≠ "") :
    Lua_GetSelf objs name = Lua_GetObjectByName objs name := by
  unfold Lua_GetSelf Lua_GetObjectByName
  have : name.isEmpty = false := by
    cases hb : name.isEmpty with
    | false => rfl
    | true => exact absurd ((String.isEmpty_iff name).mp hb) h
  simp [this]

theorem GetObjectByName_congr (objs objs0 : List (SceneObject M)) (name : String)
    (h : objs0.map (fun e => e.name) = objs.map (fun e => e.name)) :
    Lua_GetObjectByName objs0 name = Lua_GetObjectByName objs name := by
  unfold Lua_GetObjectByName
  rw [findByNameFrom_congr name objs0 objs 0 h]

theorem modifyAt_names (f : SceneObject M → SceneObject M) (objs : List (SceneObject M))
    (i : Nat) (hf : ∀ e, (f e).name = e.name) :
    (modifyAt f objs i).map (fun e => e.name) = objs.map (fun e => e.name) := by
  induction objs generalizing i with
  | nil => rfl
  | cons obj rest ih =>
    cases i with
    | zero => simp [modifyAt, hf]
    | succ i => simp [modifyAt, ih]

theorem callBridge_context (glm : Glm M) (rt : Runtime M) (c : BridgeCall) :
    (callBridge glm rt c).1.currentScriptParent = rt.currentScriptParent ∧
    (callBridge glm rt c).1.sceneObjects.map (fun e => e.name) =
      rt.sceneObjects.map (fun e => e.name) := by
  cases c <;> refine ⟨rfl, ?_⟩
  all_goals
    first
      | rfl
      | (simp only [callBridge, Runtime.withObjects, Lua_SetPosition, Lua_Move, Lua_SetRotation,
           Lua_Rotate, Lua_SetScale, Lua_SetVelocity, Lua_AddVelocity, Lua_SetVisible,
           Lua_SetColor, Lua_PlayAnimation, Lua_StopAnimation]
         split
         · rfl
         · exact modifyAt_names _ _ _ (fun e => rfl))

theorem runProg_context (glm : Glm M) (prog : LuaProg) (rt : Runtime M) :
    ((runProg glm prog rt).1.1.currentScriptParent = rt.currentScriptParent ∧
      (runProg glm prog rt).1.1.sceneObjects.map (fun e => e.name) =
        rt.sceneObjects.map (fun e => e.name)) ∧
    ∀ ev ∈ (runProg glm prog rt).2,
      ev.before.currentScriptParent = rt.currentScriptParent ∧
      ev.before.sceneObjects.map (fun e => e.name) = rt.sceneObjects.map (fun e => e.name) ∧
      ev.results = (callBridge glm ev.before ev.call).2 := by
  induction prog generalizing rt with
  | finish ok =>
    refine ⟨⟨rfl, rfl⟩, ?_⟩
    intro ev hev
    simp [runProg] at hev
  | call c k ih =>
    have hc := callBridge_context glm rt c
    have hk := ih (callBridge glm rt c).2 (callBridge glm rt c).1
    simp only [runProg]
    refine ⟨⟨hk.1.1.trans hc.1, hk.1.2.trans hc.2⟩, ?_⟩
    intro ev hev
    rcases List.mem_cons.mp hev with hev | hev
    · rw [hev]
      exact ⟨rfl, rfl, rfl⟩
    · have h := hk.2 ev hev
      exact ⟨h.1.trans hc.1, h.2.1.trans hc.2, h.2.2⟩

theorem runScript_context (glm : Glm M) (script : ScriptRun) (obj : SceneObject M)
    (rt : Runtime M) :
    ∀ ev ∈ (obj.runScript glm script rt).2,
      ev.before.currentScriptParent = obj.name ∧
      ev.before.sceneObjects.map (fun e => e.name) = rt.sceneObjects.map (fun e => e.name) ∧
      ev.results = (callBridge glm ev.before ev.call).2 := by
  intro ev hev
  unfold SceneObject.runScript at hev
  split at hev
  · simp at hev
  · have hb := runProg_context glm script.body { rt with currentScriptParent := obj.name }
    simp only at hev
    split at hev
    · split at hev
      · rename_i onUpdate _
        have hu := runProg_context glm onUpdate
          (runProg glm script.body { rt with currentScriptParent := obj.name }).1.1
        simp only [List.mem_append] at hev
        rcases hev with hev | hev
        · exact hb.2 ev hev
        · have h := hu.2 ev hev
          exact ⟨h.1.trans hb.1.1, h.2.1.trans hb.1.2, h.2.2⟩
      · exact hb.2 ev hev
    · exact hb.2 ev hev

theorem runScriptAt_GetSelf (glm : Glm M) (script : ScriptRun) (rt : Runtime M) (i : Nat)
    (obj : SceneObject M) (hobj : rt.sceneObjects.get? i = some obj) :
    ∀ ev ∈ (runScriptAt glm script i rt).2, ev.call = BridgeCall.GetSelf →
      ev.before.sceneObjects.map (fun e => e.name) = rt.sceneObjects.map (fun e => e.name) ∧
      ev.results = Lua_GetSelf ev.before.sceneObjects obj.name := by
  intro ev hev hcall
  simp only [runScriptAt, hobj] at hev
  have h := runScript_context glm script obj rt ev hev
  refine ⟨h.2.1, ?_⟩
  rw [h.2.2, hcall, ← h.1]
  rfl

/-- C4 (as amended): a GetSelf call made while the script of the entity at handle i runs
returns nil when that entity's name is empty, and otherwise the least handle whose entity
has the same name; this is the entity's own handle i when no entity earlier in the store
shares its (non-empty) name. -/
theorem GetSelf_returns_first_same_name (glm : Glm M) (script : ScriptRun) (rt : Runtime M)
    (i : Nat) (obj : SceneObject M) (hobj : rt.sceneObjects.get? i = some obj)
    (ev : BridgeEvent M) (hev : ev ∈ (runScriptAt glm script i rt).2)
    (hcall : ev.call = BridgeCall.GetSelf) :
    (obj.name = "" → ev.results = [LuaValue.nil]) ∧
    (obj.name ≠ "" →
      ∃ k e, k ≤ i ∧ rt.sceneObjects.get? k = some e ∧ e.name = obj.name ∧
        (∀ j e0, j < k → rt.sceneObjects.get? j = some e0 → e0.name ≠ obj.name) ∧
        ev.results = [LuaValue.integer k]) ∧
    (obj.name ≠ "" →
      (∀ j e0, j < i → rt.sceneObjects.get? j = some e0 → e0.name ≠ obj.name) →
      ev.results = [LuaValue.integer i]) := by
  obtain ⟨hnames, hres⟩ := runScriptAt_GetSelf glm script rt i obj hobj ev hev hcall
  refine ⟨?_, ?_, ?_⟩
  · intro hname
    rw [hres, hname]
    rfl
  · intro hname
    obtain ⟨k, e, hk, hget, hn, hmin, hval⟩ :=
      GetObjectByName_exists rt.sceneObjects obj.name i obj hobj rfl
    refine ⟨k, e, hk, hget, hn, hmin, ?_⟩
    rw [hres, Lua_GetSelf_eq _ _ hname, GetObjectByName_congr _ _ _ hnames, hval]
  · intro hname hmin
    rw [hres, Lua_GetSelf_eq _ _ hname, GetObjectByName_congr _ _ _ hnames]
    exact GetObjectByName_least rt.sceneObjects obj.name i obj hobj rfl hmin

theorem dupEvent_mem_1 : dupEvent ∈ (runScriptAt symbolicGlm getSelfScript 1 dupRuntime).2 :=
  List.mem_singleton.mpr rfl

theorem dupEvent_mem_2 : dupEvent ∈ (runScriptAt symbolicGlm getSelfScript 2 dupRuntime).2 :=
  List.mem_singleton.mpr rfl

theorem GetSelf_returns_first_same_name_witness :
    dupEvent ∈ (runScriptAt symbolicGlm getSelfScript 1 dupRuntime).2 ∧
    dupEvent.results = [LuaValue.integer 1] :=
  ⟨dupEvent_mem_1,
    (GetSelf_returns_first_same_name symbolicGlm getSelfScript dupRuntime 1 dupA rfl dupEvent
      dupEvent_mem_1 rfl).2.2 (by decide)
      (by
        intro j e0 hj hget
        have hj0 : j = 0 := by omega
        subst hj0
        have he : e0 = floorObj := by
          simpa [dupRuntime, dupStore] using hget.symm
        rw [he]
        decide)⟩

/-- C4 (counterexample): in a store whose handles 1 and 2 are both named "Dup", the script
of the entity at handle 2 calls GetSelf and receives handle 1, not its own handle 2. -/
theorem GetSelf_own_handle_counterexample :
    dupRuntime.sceneObjects.get? 2 = some dupB ∧ dupB.scriptPath = "dup.lua" ∧
    dupEvent ∈ (runScriptAt symbolicGlm getSelfScript 2 dupRuntime).2 ∧
    dupEvent.call = BridgeCall.GetSelf ∧
    dupEvent.results = [LuaValue.integer 1] ∧
    dupEvent.results ≠ [LuaValue.integer 2] :=
  ⟨rfl, rfl, dupEvent_mem_2, rfl, rfl, by decide⟩

theorem cString_of_no_nul (s : String) (h : ∀ c ∈ s.data, c ≠ Char.ofNat 0) :
    cString s = s := by
  unfold cString
  have ht : s.data.takeWhile (fun c => decide (c ≠ Char.ofNat 0)) = s.data := by
    rw [List.takeWhile_eq_self_iff]
    intro c hc
    exact decide_eq_true (h c hc)
  rw [ht]

/-- C5 (as amended): for a scripted entity whose name s is non-empty and contains no NUL
character, every GetSelf call made while its script runs returns what GetObjectByName(s)
returns (the bridge receiving s as a C string), both at that moment and on the store as it
was when the script started. -/
theorem GetSelf_eq_GetObjectByName (glm : Glm M) (script : ScriptRun) (rt : Runtime M)
    (i : Nat) (obj : SceneObject M) (hobj : rt.sceneObjects.get? i = some obj)
    (hname : obj.name ≠ "") (hnul : ∀ c ∈ obj.name.data, c ≠ Char.ofNat 0)
    (ev : BridgeEvent M) (hev : ev ∈ (runScriptAt glm script i rt).2)
    (hcall : ev.call = BridgeCall.GetSelf) :
    ev.results =
      (callBridge glm ev.before (BridgeCall.GetObjectByName (cString obj.name))).2 ∧
    ev.results = Lua_GetObjectByName rt.sceneObjects (cString obj.name) := by
  obtain ⟨hnames, hres⟩ := runScriptAt_GetSelf glm script rt i obj hobj ev hev hcall
  rw [cString_of_no_nul obj.name hnul, hres, Lua_GetSelf_eq _ _ hname]
  exact ⟨rfl, GetObjectByName_congr _ _ _ hnames⟩

theorem doorEvent_mem : doorEvent ∈ (runScriptAt symbolicGlm getSelfScript 1 doorRuntime).2 :=
  List.mem_singleton.mpr rfl

theorem GetSelf_eq_GetObjectByName_witness :
    doorEvent ∈ (runScriptAt symbolicGlm getSelfScript 1 doorRuntime).2 ∧
    doorEvent.results = Lua_GetObjectByName doorRuntime.sceneObjects (cString "Door") ∧
    Lua_GetObjectByName doorRuntime.sceneObjects (cString "Door") = [LuaValue.integer 1] :=
  ⟨doorEvent_mem,
    (GetSelf_eq_GetObjectByName symbolicGlm getSelfScript doorRuntime 1 doorObj rfl
      (by decide) (by decide) doorEvent doorEvent_mem rfl).2,
    by decide⟩

theorem nulEvent_mem : nulEvent ∈ (runScriptAt symbolicGlm getSelfScript 1 nulRuntime).2 :=
  List.mem_singleton.mpr rfl

/-- C5 (counterexample): an entity named "Door" at handle 0 and a scripted entity at
handle 1 whose non-empty name is "Door", a NUL and "X". Inside the second entity's script
GetSelf returns 1, while GetObjectByName called with that name receives the C string "Door"
and returns 0. -/
theorem GetSelf_GetObjectByName_nul_counterexample :
    nulRuntime.sceneObjects.get? 1 = some nulObj ∧
    nulObj.name ≠ "" ∧
    cString nulObj.name = "Door" ∧
    nulEvent ∈ (runScriptAt symbolicGlm getSelfScript 1 nulRuntime).2 ∧
    nulEvent.call = BridgeCall.GetSelf ∧
    nulEvent.results = [LuaValue.integer 1] ∧
    (callBridge symbolicGlm nulEvent.before
      (BridgeCall.GetObjectByName (cString nulObj.name))).2 = [LuaValue.integer 0] :=
  ⟨rfl, by decide, by decide, nulEvent_mem, rfl, rfl, by decide⟩

end ScriptTheorems

/-! ## Theorems: handle validation in the bridge -/

section HandleTheorems

variable {M : Type}

theorem handleOutOfRange_or (objs : List (SceneObject M)) (a b : Int)
    (h : handleOutOfRange objs a = true ∨ handleOutOfRange objs b = true) :
    (handleOutOfRange objs a || handleOutOfRange objs b) = true := by
  rcases h with h | h <;> simp [h]

/-- What the guards do establish: when the handle as narrowed to `int` is negative or not
below the store size, the accessor returns its sentinel and the run state is unchanged. -/
theorem callBridge_narrowed_handle_out_of_range (glm : Glm M) (rt : Runtime M) (c : BridgeCall)
    (h : ∃ objID ∈ c.handles, handleOutOfRange rt.sceneObjects (toCInt objID) = true) :
    callBridge glm rt c = (rt, c.sentinel) := by
  obtain ⟨objID, hmem, hout⟩ := h
  cases c <;> simp only [BridgeCall.handles, List.mem_singleton, List.not_mem_nil,
    List.mem_cons, or_false] at hmem
  case GetDistance obj1 obj2 =>
    have hor : (handleOutOfRange rt.sceneObjects (toCInt obj1) ||
        handleOutOfRange rt.sceneObjects (toCInt obj2)) = true := by
      apply handleOutOfRange_or
      rcases hmem with hmem | hmem
      · exact Or.inl (hmem ▸ hout)
      · exact Or.inr (hmem ▸ hout)
    simp only [callBridge, Lua_GetDistance, hor, if_true, BridgeCall.sentinel]
  all_goals
    subst hmem
    simp only [callBridge, Runtime.withObjects, BridgeCall.sentinel, Lua_SetPosition,
      Lua_GetPosition, Lua_Move, Lua_SetRotation, Lua_GetRotation, Lua_Rotate, Lua_SetScale,
      Lua_GetScale, Lua_SetVelocity, Lua_GetVelocity, Lua_AddVelocity, Lua_SetVisible,
      Lua_IsVisible, Lua_SetColor, Lua_GetColor, Lua_PlayAnimation, Lua_StopAnimation, hout,
      if_true]

/-- C2 (failing input): on a store of one entity the handle 4294967296 is not below the
store size, yet it is narrowed to the `int` 0 and passes the guard: SetPosition overwrites
entity 0 and GetPosition returns entity 0's coordinates, not the sentinel. -/
theorem SetPosition_wrapped_handle_mutates :
    (cubeRuntime.sceneObjects.length : Int) ≤ 4294967296 ∧
    toCInt 4294967296 = 0 ∧
    cubeRuntime.sceneObjects.map (fun e => e.position) = [⟨0, 0, 0⟩] ∧
    (callBridge symbolicGlm cubeRuntime
      (BridgeCall.SetPosition 4294967296 1 2 3)).1.sceneObjects.map (fun e => e.position) =
        [⟨1, 2, 3⟩] ∧
    (callBridge symbolicGlm cubeRuntime (BridgeCall.GetPosition 4294967296)).2 =
      [LuaValue.number 0, LuaValue.number 0, LuaValue.number 0] := by
  refine ⟨by decide, by decide, by decide, ?_, ?_⟩
  · simp [callBridge, Runtime.withObjects, Lua_SetPosition, handleOutOfRange, toCInt,
      cubeRuntime, modifyAt, SceneObject.updateTransform]
  · simp [callBridge, Lua_GetPosition, handleOutOfRange, toCInt, cubeRuntime, loadedCube,
      restingCube, SceneObject.updateTransform, Vec3.splat]

end HandleTheorems

/-! ## Theorems: transform recompute and animation control -/

section RecomputeTheorems

variable {M : Type}

/-- C19: updateTransform applied twice gives the same entity as applied once; it changes no
field other than transform, and the transform it stores is a function of position, rotation
and scale only. -/
theorem updateTransform_idempotent (glm : Glm M) (e : SceneObject M) :
    (e.updateTransform glm).updateTransform glm = e.updateTransform glm ∧
    e.updateTransform glm =
      { e with transform := composeTransform glm e.position e.rotation e.scale } ∧
    (∀ e0 : SceneObject M, e0.position = e.position → e0.rotation = e.rotation →
      e0.scale = e.scale →
      (e0.updateTransform glm).transform = (e.updateTransform glm).transform) := by
  refine ⟨rfl, rfl, ?_⟩
  intro e0 hp hr hs
  simp only [SceneObject.updateTransform, hp, hr, hs]

theorem toCInt_of_small (h : Nat) (hlt : h < 2147483648) : toCInt (h : Int) = h := by
  unfold toCInt
  omega

theorem handleOutOfRange_valid (objs : List (SceneObject M)) (h : Nat)
    (hlt : h < objs.length) (hsize : objs.length < 2147483648) :
    handleOutOfRange objs (toCInt (h : Int)) = false := by
  unfold handleOutOfRange
  rw [toCInt_of_small h (by omega), toCInt_of_small objs.length hsize]
  simp only [Bool.or_eq_false_iff, decide_eq_false_iff_not]
  omega

theorem modifyAt_eq_set (f : SceneObject M → SceneObject M) (objs : List (SceneObject M))
    (i : Nat) (e : SceneObject M) (h : objs.get? i = some e) :
    modifyAt f objs i = objs.set i (f e) := by
  induction objs generalizing i with
  | nil => simp at h
  | cons obj rest ih =>
    cases i with
    | zero =>
      simp only [List.get?_cons_zero, Option.some.injEq] at h
      simp [modifyAt, h]
    | succ i =>
      simp only [List.get?_cons_succ] at h
      simp [modifyAt, ih i h]

/-- C20: for a valid handle h (0 <= h < N, the store size N within the range of `int`),
PlayAnimation(h, name) sets entity h's clock to 0, its clip name to name and its playing
flag to true whatever they were, StopAnimation(h) sets the playing flag to false and keeps
clock and clip name; every other field of entity h and every other entity is unchanged, and
neither call returns a value. -/
theorem PlayAnimation_StopAnimation_effect (objs : List (SceneObject M)) (h : Nat)
    (animName : String) (e : SceneObject M) (hget : objs.get? h = some e)
    (hsize : objs.length < 2147483648) :
    Lua_PlayAnimation objs (h : Int) animName =
      (objs.set h { e with currentAnimation := animName, isAnimationPlaying := true,
                           animationTime := 0 }, []) ∧
    Lua_StopAnimation objs (h : Int) = (objs.set h { e with isAnimationPlaying := false }, []) := by
  have hlt : h < objs.length := by
    rw [List.get?_eq_getElem?] at hget
    exact (List.getElem?_eq_some_iff.mp hget).1
  have hguard := handleOutOfRange_valid objs h hlt hsize
  have hidx : (toCInt (h : Int)).toNat = h := by
    rw [toCInt_of_small h (by omega)]
    exact Int.toNat_natCast h
  constructor
  · simp only [Lua_PlayAnimation, hguard, hidx]
    rw [modifyAt_eq_set _ objs h e hget]
    rfl
  · simp only [Lua_StopAnimation, hguard, hidx]
    rw [modifyAt_eq_set _ objs h e hget]
    rfl

theorem PlayAnimation_StopAnimation_effect_witness :
    (Lua_PlayAnimation [floorObj, loopObj] 1 "Walk").1 =
      [floorObj, { loopObj with currentAnimation := "Walk", isAnimationPlaying := true,
                                animationTime := 0 }] ∧
    (Lua_StopAnimation [floorObj, loopObj] 1).1 =
      [floorObj, { loopObj with isAnimationPlaying := false }] := by
  have h := PlayAnimation_StopAnimation_effect [floorObj, loopObj] 1 "Walk" loopObj rfl
    (by decide)
  exact ⟨congrArg Prod.fst h.1, congrArg Prod.fst h.2⟩

end RecomputeTheorems

/-! ## Theorems: keyframe bracketing and interpolation -/

section SamplerTheorems

variable {M : Type}

theorem sampleVectorKeys_eq_interpolate (keys : List AiVectorKey) (t : ℚ) :
    sampleVectorKeys keys t =
      interpolateVectorKeys keys (findFrame (fun i => (vectorKey keys i).mTime) keys.length t)
        t := rfl

theorem findFrameLoop_no_bracket (keyTime : Nat → ℚ) (t : ℚ) (fuel i : Nat)
    (h : ∀ j, i ≤ j → j < i + fuel → ¬ t < keyTime (j + 1)) :
    findFrameLoop keyTime t fuel i = 0 := by
  induction fuel generalizing i with
  | zero => rfl
  | succ fuel ih =>
    simp only [findFrameLoop, h i (le_refl i) (by omega), if_false]
    exact ih (i + 1) (fun j hj hlt => h j (by omega) (by omega))

/-- What the bracket search does when no bracket exists: the index stays 0. -/
theorem findFrame_no_bracket (keyTime : Nat → ℚ) (numKeys : Nat) (t : ℚ)
    (h : ∀ i, i + 1 < numKeys → ¬ t < keyTime (i + 1)) :
    findFrame keyTime numKeys t = 0 :=
  findFrameLoop_no_bracket keyTime t (numKeys - 1) 0 (fun j _ hlt => h j (by omega))

theorem findFrame_first (keyTime : Nat → ℚ) (numKeys : Nat) (t : ℚ) (hn : 2 ≤ numKeys)
    (h : t < keyTime 1) : findFrame keyTime numKeys t = 0 := by
  obtain ⟨k, hk⟩ : ∃ k, numKeys - 1 = k + 1 := ⟨numKeys - 2, by omega⟩
  simp only [findFrame, hk, findFrameLoop, Nat.zero_add, h, if_true]

theorem clamp_of_nonpos (x : ℚ) (h : x ≤ 0) : clamp x 0 1 = 0 := by
  unfold clamp
  rw [max_eq_right h]
  exact min_eq_left (by norm_num)

theorem clamp_of_one_le (x : ℚ) (h : 1 ≤ x) : clamp x 0 1 = 1 := by
  unfold clamp
  rw [max_eq_left (by linarith)]
  exact min_eq_right h

theorem interpolate_delta_zero (keys : List AiVectorKey) (frame : Nat) (t : ℚ)
    (h : keyDelta (vectorKey keys frame).mTime
      (vectorKey keys ((frame + 1) % keys.length)).mTime t = 0) :
    interpolateVectorKeys keys frame t = (vectorKey keys frame).mValue := by
  simp only [interpolateVectorKeys, h, mul_zero, add_zero]

/-- C11 (as amended): for a position or scale channel with at least one key in which, when
there are two or more keys, the first two key times satisfy 0 <= t0 <= t1 and 0 < t1, the
bracket-and-interpolate computation at clock = 0 yields exactly the value of the first
keyframe. -/
theorem sampleVectorKeys_clock_zero (keys : List AiVectorKey) (hn : 0 < keys.length)
    (htimes : 2 ≤ keys.length →
      0 ≤ (vectorKey keys 0).mTime ∧ (vectorKey keys 0).mTime ≤ (vectorKey keys 1).mTime ∧
        0 < (vectorKey keys 1).mTime) :
    sampleVectorKeys keys 0 = (vectorKey keys 0).mValue := by
  rw [sampleVectorKeys_eq_interpolate]
  by_cases h2 : 2 ≤ keys.length
  · obtain ⟨h0, h01, h1⟩ := htimes h2
    rw [findFrame_first _ keys.length 0 h2 h1]
    apply interpolate_delta_zero
    have hmod : (0 + 1) % keys.length = 1 := Nat.mod_eq_of_lt (by omega)
    rw [hmod]
    unfold keyDelta
    split
    · exact clamp_of_nonpos 0 (le_refl 0)
    · rename_i hne
      apply clamp_of_nonpos
      apply div_nonpos_of_nonpos_of_nonneg <;> linarith
  · have h1 : keys.length = 1 := by omega
    have hf : findFrame (fun i => (vectorKey keys i).mTime) keys.length 0 = 0 := by
      simp [findFrame, h1, findFrameLoop]
    rw [hf]
    apply interpolate_delta_zero
    simp [h1, keyDelta, clamp]

theorem sampleVectorKeys_clock_zero_witness :
    sampleVectorKeys loopKeys 0 = ⟨0, 0, 0⟩ :=
  sampleVectorKeys_clock_zero loopKeys (by decide)
    (fun _ => by simp [vectorKey, loopKeys])

/-- C11 (counterexample): a channel with keys at times 0, 0, 1 (values (0,0,0), (10,0,0),
(20,0,0)) sampled at clock = 0 brackets at index 1 and yields (10,0,0), the value of the
second keyframe, not of the first. -/
theorem sampleVectorKeys_clock_zero_counterexample :
    findFrame (fun i => (vectorKey doubleStartKeys i).mTime) doubleStartKeys.length 0 = 1 ∧
    sampleVectorKeys doubleStartKeys 0 = ⟨10, 0, 0⟩ ∧
    (vectorKey doubleStartKeys 0).mValue = ⟨0, 0, 0⟩ ∧
    sampleVectorKeys doubleStartKeys 0 ≠ (vectorKey doubleStartKeys 0).mValue := by
  have hf : findFrame (fun i => (vectorKey doubleStartKeys i).mTime)
      doubleStartKeys.length 0 = 1 := by
    simp [findFrame, findFrameLoop, vectorKey, doubleStartKeys]
  have hs : sampleVectorKeys doubleStartKeys 0 = ⟨10, 0, 0⟩ := by
    rw [sampleVectorKeys_eq_interpolate, hf]
    simp [interpolateVectorKeys, vectorKey, doubleStartKeys, keyDelta, clamp]
  refine ⟨hf, hs, rfl, ?_⟩
  rw [hs]
  simp [vectorKey, doubleStartKeys]

end SamplerTheorems

/-! ## Theorems: the sampler step -/

section StepTheorems

variable {M : Type}

theorem animationStep_resolved (glm : Glm M) (slerpEuler : Quat → Quat → ℚ → Vec3) (dt : ℚ)
    (obj : SceneObject M) (scene : AiScene) (anim : AiAnimation) (hplay : Playing obj)
    (hscene : obj.scene = some scene)
    (hanim : findAnimation obj.currentAnimation scene = some anim) :
    animationStep glm slerpEuler dt obj = sampleClip glm slerpEuler dt scene anim obj := by
  unfold animationStep sampleClip
  simp only [hplay.1, hplay.2, hscene, hanim, Option.isNone_some, Bool.not_true, decide_False,
    Bool.or_self, Bool.false_eq_true, if_false]

theorem animationStep_unresolved (glm : Glm M) (slerpEuler : Quat → Quat → ℚ → Vec3) (dt : ℚ)
    (obj : SceneObject M) (scene : AiScene) (hscene : obj.scene = some scene)
    (hanim : findAnimation obj.currentAnimation scene = none) :
    animationStep glm slerpEuler dt obj = obj := by
  unfold animationStep
  split
  · rfl
  · simp only [hscene, hanim]

theorem applyChannel_animationTime (glm : Glm M) (slerpEuler : Quat → Quat → ℚ → Vec3)
    (ch : AiNodeAnim) (obj : SceneObject M) :
    (applyChannel glm slerpEuler ch obj).animationTime = obj.animationTime := by
  unfold applyChannel SceneObject.updateTransform
  split <;> split <;> split <;> rfl

theorem applyChannel_position (glm : Glm M) (slerpEuler : Quat → Quat → ℚ → Vec3)
    (ch : AiNodeAnim) (obj : SceneObject M) :
    (applyChannel glm slerpEuler ch obj).position =
      if ch.mPositionKeys.length > 0 then sampleVectorKeys ch.mPositionKeys obj.animationTime
      else obj.position := by
  unfold applyChannel SceneObject.updateTransform
  split <;> split <;> split <;> rfl

theorem applyChannel_rotation (glm : Glm M) (slerpEuler : Quat → Quat → ℚ → Vec3)
    (ch : AiNodeAnim) (obj : SceneObject M) :
    (applyChannel glm slerpEuler ch obj).rotation =
      if ch.mRotationKeys.length > 0 then
        sampleRotationKeys slerpEuler ch.mRotationKeys obj.animationTime
      else obj.rotation := by
  unfold applyChannel SceneObject.updateTransform
  split <;> split <;> split <;> rfl

theorem applyChannel_scale (glm : Glm M) (slerpEuler : Quat → Quat → ℚ → Vec3)
    (ch : AiNodeAnim) (obj : SceneObject M) :
    (applyChannel glm slerpEuler ch obj).scale =
      if ch.mScalingKeys.length > 0 then sampleVectorKeys ch.mScalingKeys obj.animationTime
      else obj.scale := by
  unfold applyChannel SceneObject.updateTransform
  split <;> split <;> split <;> rfl

theorem sampleClip_animationTime (glm : Glm M) (slerpEuler : Quat → Quat → ℚ → Vec3) (dt : ℚ)
    (scene : AiScene) (anim : AiAnimation) (obj : SceneObject M) :
    (sampleClip glm slerpEuler dt scene anim obj).animationTime =
      advanceClock anim obj.animationTime dt := by
  unfold sampleClip
  simp only
  split
  · rfl
  · split
    · rfl
    · rw [applyChannel_animationTime]

theorem findChannel_some_length (scene : AiScene) (anim : AiAnimation) (ch : AiNodeAnim)
    (h : findChannel scene anim = some ch) : anim.mChannels.length ≠ 0 := by
  intro h0
  have hnil : anim.mChannels = [] := List.length_eq_zero.mp h0
  unfold findChannel at h
  rw [hnil] at h
  cases hroot : scene.mRootNode <;> simp [hroot] at h

theorem sampleClip_channel (glm : Glm M) (slerpEuler : Quat → Quat → ℚ → Vec3) (dt : ℚ)
    (scene : AiScene) (anim : AiAnimation) (ch : AiNodeAnim) (obj : SceneObject M)
    (hch : findChannel scene anim = some ch) :
    sampleClip glm slerpEuler dt scene anim obj =
      applyChannel glm slerpEuler ch
        { obj with animationTime := advanceClock anim obj.animationTime dt } := by
  unfold sampleClip
  simp only [findChannel_some_length scene anim ch hch, hch, if_false]

theorem findAnimationFrom_first (cur : String) (clips : List AiAnimation) (k i : Nat)
    (anim : AiAnimation) (hget : clips.get? i = some anim) (hname : clipName (k + i) anim = cur)
    (hmin : ∀ j a, j < i → clips.get? j = some a → clipName (k + j) a ≠ cur) :
    findAnimationFrom cur k clips = some anim := by
  induction clips generalizing k i with
  | nil => simp at hget
  | cons c rest ih =>
    cases i with
    | zero =>
      simp only [List.get?_cons_zero, Option.some.injEq] at hget
      subst hget
      simp only [Nat.add_zero] at hname
      simp only [findAnimationFrom, hname, if_true]
    | succ i =>
      simp only [List.get?_cons_succ] at hget
      have h0 : cur ≠ clipName k c := by
        have := hmin 0 c (by omega) rfl
        simpa using fun h => this h.symm
      simp only [findAnimationFrom, h0, if_false]
      apply ih (k + 1) i hget
      · rw [← hname]; congr 1; omega
      · intro j a hj hgetj
        have := hmin (j + 1) a (by omega) hgetj
        have he : k + 1 + j = k + (j + 1) := by omega
        rw [he]
        exact this

theorem findAnimationFrom_none (cur : String) (clips : List AiAnimation) (k : Nat)
    (hnone : ∀ j a, clips.get? j = some a → clipName (k + j) a ≠ cur) :
    findAnimationFrom cur k clips = none := by
  induction clips generalizing k with
  | nil => rfl
  | cons c rest ih =>
    have h0 : cur ≠ clipName k c := by
      have := hnone 0 c rfl
      simpa using fun h => this h.symm
    simp only [findAnimationFrom, h0, if_false]
    apply ih (k + 1)
    intro j a hgetj
    have := hnone (j + 1) a hgetj
    have he : k + 1 + j = k + (j + 1) := by omega
    rw [he]
    exact this

end StepTheorems

section ClockTheorems

variable {M : Type}

theorem fmod_of_gt (T D : ℚ) (hD : 0 < D) (hT : D < T) :
    fmod T D = T - (⌊T / D⌋ : ℤ) * D ∧ 0 ≤ fmod T D ∧ fmod T D < D := by
  have hq : 0 ≤ T / D := le_of_lt (div_pos (by linarith) hD)
  have hf : fmod T D = T - (⌊T / D⌋ : ℤ) * D := by
    simp only [fmod, hq, if_true]
  have hTD : T / D * D = T := div_mul_cancel₀ T (ne_of_gt hD)
  have h1 : ((⌊T / D⌋ : ℤ) : ℚ) ≤ T / D := Int.floor_le (T / D)
  have h2 : T / D < ((⌊T / D⌋ : ℤ) : ℚ) + 1 := Int.lt_floor_add_one (T / D)
  refine ⟨hf, ?_, ?_⟩
  · rw [hf]
    have : ((⌊T / D⌋ : ℤ) : ℚ) * D ≤ T / D * D := mul_le_mul_of_nonneg_right h1 (le_of_lt hD)
    linarith
  · rw [hf]
    have : T / D * D < (((⌊T / D⌋ : ℤ) : ℚ) + 1) * D := mul_lt_mul_of_pos_right h2 hD
    linarith

/-- C14: for a Playing entity whose clip resolves, with prior clock c, tick length dt,
declared ticks-per-second r and duration D > 0, the clock after the sampler step is
T = c + dt * tps when T <= D and T mod D (T minus the largest multiple of D not above it) when
T > D, where tps = r if r is not 0 and 25 otherwise; with c >= 0, dt >= 0 and tps > 0 the new
clock lies in [0, D]. -/
theorem animationStep_clock (glm : Glm M) (slerpEuler : Quat → Quat → ℚ → Vec3) (dt : ℚ)
    (obj : SceneObject M) (scene : AiScene) (anim : AiAnimation) (hplay : Playing obj)
    (hscene : obj.scene = some scene)
    (hanim : findAnimation obj.currentAnimation scene = some anim)
    (hD : 0 < anim.mDuration) (tps T : ℚ)
    (htps : tps = if anim.mTicksPerSecond ≠ 0 then anim.mTicksPerSecond else 25)
    (hT : T = obj.animationTime + dt * tps) :
    (T ≤ anim.mDuration → (animationStep glm slerpEuler dt obj).animationTime = T) ∧
    (anim.mDuration < T → (animationStep glm slerpEuler dt obj).animationTime =
      T - (⌊T / anim.mDuration⌋ : ℤ) * anim.mDuration) ∧
    (0 ≤ obj.animationTime → 0 ≤ dt → 0 < tps →
      0 ≤ (animationStep glm slerpEuler dt obj).animationTime ∧
      (animationStep glm slerpEuler dt obj).animationTime ≤ anim.mDuration) := by
  rw [animationStep_resolved glm slerpEuler dt obj scene anim hplay hscene hanim,
    sampleClip_animationTime]
  have hclock : advanceClock anim obj.animationTime dt =
      if T > anim.mDuration then fmod T anim.mDuration else T := by
    simp only [advanceClock, hT, htps]
  rw [hclock]
  refine ⟨?_, ?_, ?_⟩
  · intro hle
    simp only [gt_iff_lt, not_lt.mpr hle, if_false]
  · intro hgt
    simp only [gt_iff_lt, hgt, if_true]
    exact (fmod_of_gt T anim.mDuration hD hgt).1
  · intro hc hdt htp
    have hT0 : 0 ≤ T := by
      rw [hT]
      have := mul_nonneg hdt (le_of_lt htp)
      linarith
    by_cases hgt : anim.mDuration < T
    · simp only [gt_iff_lt, hgt, if_true]
      have := fmod_of_gt T anim.mDuration hD hgt
      exact ⟨this.2.1, le_of_lt this.2.2⟩
    · simp only [gt_iff_lt, hgt, if_false]
      exact ⟨hT0, not_lt.mp hgt⟩

theorem loopObj_resolves : Playing loopObj ∧ loopObj.scene = some loopScene ∧
    findAnimation loopObj.currentAnimation loopScene = some loopClip := by
  refine ⟨⟨rfl, by decide⟩, rfl, rfl⟩

theorem animationStep_clock_witness :
    (animationStep symbolicGlm sampleSlerp (1 / 25) loopObj).animationTime = 1 ∧
    (animationStep symbolicGlm sampleSlerp (3 / 25) loopObj).animationTime = 1 := by
  have h1 := animationStep_clock symbolicGlm sampleSlerp (1 / 25) loopObj loopScene loopClip
    loopObj_resolves.1 loopObj_resolves.2.1 loopObj_resolves.2.2
    (by norm_num [loopClip]) 25 1 (by norm_num [loopClip]) (by norm_num [loopObj])
  have h3 := animationStep_clock symbolicGlm sampleSlerp (3 / 25) loopObj loopScene loopClip
    loopObj_resolves.1 loopObj_resolves.2.1 loopObj_resolves.2.2
    (by norm_num [loopClip]) 25 3 (by norm_num [loopClip]) (by norm_num [loopObj])
  refine ⟨h1.1 (by norm_num [loopClip]), ?_⟩
  rw [h3.2.1 (by norm_num [loopClip])]
  have hfl : (⌊(3 : ℚ) / loopClip.mDuration⌋ : ℤ) = 1 := by
    rw [Int.floor_eq_iff]
    norm_num [loopClip]
  rw [hfl]
  norm_num [loopClip]

end ClockTheorems

section ClipTheorems

variable {M : Type}

/-- C15: for a Playing entity with an imported asset, the sampler selects the first clip in
clip-table order whose effective name (declared name, or Animation_<i> when that is empty)
equals currentAnimation, and the step is the clock update and sampling of that clip; when no
clip's effective name matches, the step leaves the entity entirely unchanged. -/
theorem animationStep_clip_selection (glm : Glm M) (slerpEuler : Quat → Quat → ℚ → Vec3)
    (dt : ℚ) (obj : SceneObject M) (scene : AiScene) (hplay : Playing obj)
    (hscene : obj.scene = some scene) :
    (∀ (i : Nat) (anim : AiAnimation), scene.mAnimations.get? i = some anim →
      (if anim.mName = "" then "Animation_" ++ toString i else anim.mName) =
        obj.currentAnimation →
      (∀ (j : Nat) (a : AiAnimation), j < i → scene.mAnimations.get? j = some a →
        (if a.mName = "" then "Animation_" ++ toString j else a.mName) ≠
          obj.currentAnimation) →
      findAnimation obj.currentAnimation scene = some anim ∧
      animationStep glm slerpEuler dt obj = sampleClip glm slerpEuler dt scene anim obj) ∧
    ((∀ (j : Nat) (a : AiAnimation), scene.mAnimations.get? j = some a →
        (if a.mName = "" then "Animation_" ++ toString j else a.mName) ≠
          obj.currentAnimation) →
      animationStep glm slerpEuler dt obj = obj) := by
  have hname : ∀ (j : Nat) (a : AiAnimation),
      clipName j a = (if a.mName = "" then "Animation_" ++ toString j else a.mName) := by
    intro j a
    unfold clipName
    by_cases h : a.mName = ""
    · have : a.mName.isEmpty = true := (String.isEmpty_iff a.mName).mpr h
      rw [if_pos this, if_pos h]
    · have : a.mName.isEmpty = false := by
        cases hb : a.mName.isEmpty with
        | false => rfl
        | true => exact absurd ((String.isEmpty_iff a.mName).mp hb) h
      simp [h, this]
  constructor
  · intro i anim hget hn hmin
    have hfind : findAnimation obj.currentAnimation scene = some anim := by
      unfold findAnimation
      apply findAnimationFrom_first obj.currentAnimation scene.mAnimations 0 i anim hget
      · rw [Nat.zero_add, hname]; exact hn
      · intro j a hj hgetj
        rw [Nat.zero_add, hname]
        exact hmin j a hj hgetj
    exact ⟨hfind, animationStep_resolved glm slerpEuler dt obj scene anim hplay hscene hfind⟩
  · intro hnone
    apply animationStep_unresolved glm slerpEuler dt obj scene hscene
    unfold findAnimation
    apply findAnimationFrom_none
    intro j a hgetj
    rw [Nat.zero_add, hname]
    exact hnone j a hgetj

theorem animationStep_clip_selection_witness :
    findAnimation loopObj.currentAnimation loopScene = some loopClip ∧
    animationStep symbolicGlm sampleSlerp (1 / 25) loopObj =
      sampleClip symbolicGlm sampleSlerp (1 / 25) loopScene loopClip loopObj :=
  (animationStep_clip_selection symbolicGlm sampleSlerp (1 / 25) loopObj loopScene
    loopObj_resolves.1 loopObj_resolves.2.1).1 0 loopClip rfl (by decide)
    (fun j _ hj _ => absurd hj (Nat.not_lt_zero j))

/-- C16: in a sampler step on an entity whose clip and channel resolve, the position is
unchanged when the channel has no position key, the rotation when it has no rotation key,
the scale when it has no scaling key; with at least one key of a kind the component is
overwritten by the sample of those keys at the updated clock. -/
theorem animationStep_absent_channels (glm : Glm M) (slerpEuler : Quat → Quat → ℚ → Vec3)
    (dt : ℚ) (obj : SceneObject M) (scene : AiScene) (anim : AiAnimation) (ch : AiNodeAnim)
    (hplay : Playing obj) (hscene : obj.scene = some scene)
    (hanim : findAnimation obj.currentAnimation scene = some anim)
    (hch : findChannel scene anim = some ch) :
    (ch.mPositionKeys.length = 0 →
      (animationStep glm slerpEuler dt obj).position = obj.position) ∧
    (ch.mRotationKeys.length = 0 →
      (animationStep glm slerpEuler dt obj).rotation = obj.rotation) ∧
    (ch.mScalingKeys.length = 0 →
      (animationStep glm slerpEuler dt obj).scale = obj.scale) ∧
    (0 < ch.mPositionKeys.length →
      (animationStep glm slerpEuler dt obj).position =
        sampleVectorKeys ch.mPositionKeys (advanceClock anim obj.animationTime dt)) ∧
    (0 < ch.mRotationKeys.length →
      (animationStep glm slerpEuler dt obj).rotation =
        sampleRotationKeys slerpEuler ch.mRotationKeys
          (advanceClock anim obj.animationTime dt)) ∧
    (0 < ch.mScalingKeys.length →
      (animationStep glm slerpEuler dt obj).scale =
        sampleVectorKeys ch.mScalingKeys (advanceClock anim obj.animationTime dt)) := by
  rw [animationStep_resolved glm slerpEuler dt obj scene anim hplay hscene hanim,
    sampleClip_channel glm slerpEuler dt scene anim ch obj hch,
    applyChannel_position, applyChannel_rotation, applyChannel_scale]
  refine ⟨?_, ?_, ?_, ?_, ?_, ?_⟩ <;> intro h
  · rw [if_neg (by omega)]
  · rw [if_neg (by omega)]
  · rw [if_neg (by omega)]
  · rw [if_pos h]
  · rw [if_pos h]
  · rw [if_pos h]

theorem loopClip_channel :
    findChannel loopScene loopClip =
      some { mNodeName := "Root", mPositionKeys := loopKeys, mRotationKeys := [],
             mScalingKeys := [] } := by
  simp [findChannel, loopScene, loopClip]

theorem animationStep_absent_channels_witness :
    (animationStep symbolicGlm sampleSlerp (1 / 25) loopObj).rotation = ⟨1, 2, 3⟩ ∧
    (animationStep symbolicGlm sampleSlerp (1 / 25) loopObj).scale = Vec3.splat 1 := by
  have h := animationStep_absent_channels symbolicGlm sampleSlerp (1 / 25) loopObj loopScene
    loopClip _ loopObj_resolves.1 loopObj_resolves.2.1 loopObj_resolves.2.2 loopClip_channel
  exact ⟨h.2.1 rfl, h.2.2.1 rfl⟩

end ClipTheorems

section WrapTheorems

variable {M : Type}

/-- What the position and scale blocks compute when no bracket exists: the interpolation
from key 0 toward key 1 (key 0 itself when there is a single key). -/
theorem sampleVectorKeys_no_bracket (keys : List AiVectorKey) (t : ℚ)
    (h : ∀ i, i + 1 < keys.length → ¬ t < (vectorKey keys (i + 1)).mTime) :
    sampleVectorKeys keys t = interpolateVectorKeys keys 0 t := by
  rw [sampleVectorKeys_eq_interpolate,
    findFrame_no_bracket (fun i => (vectorKey keys i).mTime) keys.length t h]

theorem loopKeys_at_duration : sampleVectorKeys loopKeys 2 = ⟨10, 0, 0⟩ := by
  rw [sampleVectorKeys_no_bracket loopKeys 2 (by
    intro i hi
    have hi2 : i < 2 := by
      have hl : loopKeys.length = 3 := rfl
      omega
    interval_cases i <;> simp [vectorKey, loopKeys])]
  simp [interpolateVectorKeys, vectorKey, loopKeys, keyDelta, clamp]

theorem loopObj_step_position (dt : ℚ) :
    (animationStep symbolicGlm sampleSlerp dt loopObj).position =
      sampleVectorKeys loopKeys (advanceClock loopClip 0 dt) := by
  rw [animationStep_resolved symbolicGlm sampleSlerp dt loopObj loopScene loopClip
    loopObj_resolves.1 loopObj_resolves.2.1 loopObj_resolves.2.2,
    sampleClip_channel symbolicGlm sampleSlerp dt loopScene loopClip _ loopObj loopClip_channel,
    applyChannel_position]
  rfl

/-- C12 (failing input): a clip of duration 2 whose position keys sit at times 0, 1, 2 with
values (0,0,0), (10,0,0), (0,0,0) (first and last equal). A step that brings the clock to
exactly 2 leaves it at 2 (the wrap needs clock > duration) and samples (10,0,0), the value of
key 1, while the sample at clock 0 is (0,0,0). -/
theorem loop_continuity_fails_at_duration :
    loopClip.mDuration = 2 ∧
    loopKeys.map (fun k => k.mTime) = [0, 1, 2] ∧
    (vectorKey loopKeys 0).mValue = (vectorKey loopKeys (loopKeys.length - 1)).mValue ∧
    (animationStep symbolicGlm sampleSlerp (2 / 25) loopObj).animationTime = 2 ∧
    (animationStep symbolicGlm sampleSlerp (2 / 25) loopObj).position = ⟨10, 0, 0⟩ ∧
    (animationStep symbolicGlm sampleSlerp 0 loopObj).animationTime = 0 ∧
    (animationStep symbolicGlm sampleSlerp 0 loopObj).position = ⟨0, 0, 0⟩ ∧
    sampleVectorKeys loopKeys 2 ≠ sampleVectorKeys loopKeys 0 := by
  have hres := loopObj_resolves
  have hc2 : advanceClock loopClip 0 (2 / 25) = 2 := by norm_num [advanceClock, loopClip]
  have hc0 : advanceClock loopClip 0 0 = 0 := by norm_num [advanceClock, loopClip]
  have hs0 : sampleVectorKeys loopKeys 0 = ⟨0, 0, 0⟩ := by
    rw [sampleVectorKeys_eq_interpolate,
      findFrame_first _ loopKeys.length 0 (by decide) (by norm_num [vectorKey, loopKeys])]
    simp [interpolateVectorKeys, vectorKey, loopKeys, keyDelta, clamp]
  have ht : ∀ dt : ℚ, (animationStep symbolicGlm sampleSlerp dt loopObj).animationTime =
      advanceClock loopClip 0 dt := by
    intro dt
    rw [animationStep_resolved symbolicGlm sampleSlerp dt loopObj loopScene loopClip
      hres.1 hres.2.1 hres.2.2, sampleClip_animationTime]
    rfl
  refine ⟨rfl, by simp [loopKeys], rfl, ?_, ?_, ?_, ?_, ?_⟩
  · rw [ht, hc2]
  · rw [loopObj_step_position, hc2, loopKeys_at_duration]
  · rw [ht, hc0]
  · rw [loopObj_step_position, hc0, hs0]
  · rw [loopKeys_at_duration, hs0]
    simp

/-- C13 (failing input): position keys at times 0, 1, 2 with values (0,0,0), (10,5,0),
(20,0,0), clock 2: no index i has clock < time[i+1], and the search leaves the bracket index
at 0 (not count-1 = 2) with next = 1, so the sample is (10,5,0), the value of key 1; the
interpolation from the last key toward key 0 would be (20,0,0). -/
theorem no_bracket_keeps_index_zero :
    rampKeys.map (fun k => k.mTime) = [0, 1, 2] ∧
    findFrame (fun i => (vectorKey rampKeys i).mTime) rampKeys.length 2 = 0 ∧
    rampKeys.length - 1 = 2 ∧
    (0 + 1) % rampKeys.length = 1 ∧
    sampleVectorKeys rampKeys 2 = ⟨10, 5, 0⟩ ∧
    interpolateVectorKeys rampKeys (rampKeys.length - 1) 2 = ⟨20, 0, 0⟩ := by
  have hno : ∀ i, i + 1 < rampKeys.length → ¬ (2 : ℚ) < (vectorKey rampKeys (i + 1)).mTime := by
    intro i hi
    have hi2 : i < 2 := by
      have hl : rampKeys.length = 3 := rfl
      omega
    interval_cases i <;> simp [vectorKey, rampKeys]
  refine ⟨by simp [rampKeys], findFrame_no_bracket _ _ _ hno, rfl, rfl, ?_, ?_⟩
  · rw [sampleVectorKeys_no_bracket rampKeys 2 hno]
    simp [interpolateVectorKeys, vectorKey, rampKeys, keyDelta, clamp]
  · simp [interpolateVectorKeys, vectorKey, rampKeys, keyDelta, clamp]

end WrapTheorems

/-! ## Theorems: script context lifecycle and scene camera -/

section LifecycleTheorems

variable {M : Type}

theorem isEmpty_false_of_ne (s : String) (h : s ≠ "") : s.isEmpty = false := by
  cases hb : s.isEmpty with
  | false => rfl
  | true => exact absurd ((String.isEmpty_iff s).mp hb) h

theorem runScript_started (glm : Glm M) (script : ScriptRun) (obj : SceneObject M)
    (rt : Runtime M) (hscript : obj.scriptPath ≠ "") (hlua : rt.luaState = true) :
    obj.runScript glm script rt =
      (let body := runProg glm script.body { rt with currentScriptParent := obj.name }
       let after : Runtime M × List (BridgeEvent M) :=
         if body.1.2 then
           match script.onUpdate with
           | some onUpdate =>
             let upd := runProg glm onUpdate body.1.1
             (upd.1.1, body.2 ++ upd.2)
           | none => (body.1.1, body.2)
         else (body.1.1, body.2)
       ({ after.1 with currentScriptParent := "" }, after.2)) := by
  unfold SceneObject.runScript
  simp only [isEmpty_false_of_ne _ hscript, hlua, Bool.not_true, Bool.or_self,
    Bool.false_eq_true, if_false]

/-- C17: for an entity with a non-empty script reference (and an initialised Lua state),
runScript runs the script body in the state whose current-self context is the entity's name,
every bridge call of the run sees that context, and in each outcome (body fails, body
succeeds without OnUpdate, OnUpdate succeeds, OnUpdate fails) the run ends with the
current-self context empty; for an entity with no script reference runScript changes
nothing, the current-self context included. -/
theorem runScript_context_lifecycle (glm : Glm M) (script : ScriptRun) (obj : SceneObject M)
    (rt : Runtime M) :
    (obj.scriptPath ≠ "" → rt.luaState = true →
      (obj.runScript glm script rt).1.currentScriptParent = "" ∧
      (∀ ev ∈ (obj.runScript glm script rt).2, ev.before.currentScriptParent = obj.name) ∧
      ((runProg glm script.body { rt with currentScriptParent := obj.name }).2 <+:
        (obj.runScript glm script rt).2) ∧
      ((runProg glm script.body { rt with currentScriptParent := obj.name }).1.2 = false →
        obj.runScript glm script rt =
          ({ (runProg glm script.body { rt with currentScriptParent := obj.name }).1.1 with
              currentScriptParent := "" },
            (runProg glm script.body { rt with currentScriptParent := obj.name }).2)) ∧
      ((runProg glm script.body { rt with currentScriptParent := obj.name }).1.2 = true →
        script.onUpdate = none →
        obj.runScript glm script rt =
          ({ (runProg glm script.body { rt with currentScriptParent := obj.name }).1.1 with
              currentScriptParent := "" },
            (runProg glm script.body { rt with currentScriptParent := obj.name }).2)) ∧
      (∀ onUpdate : LuaProg,
        (runProg glm script.body { rt with currentScriptParent := obj.name }).1.2 = true →
        script.onUpdate = some onUpdate →
        obj.runScript glm script rt =
          ({ (runProg glm onUpdate
                (runProg glm script.body
                  { rt with currentScriptParent := obj.name }).1.1).1.1 with
              currentScriptParent := "" },
            (runProg glm script.body { rt with currentScriptParent := obj.name }).2 ++
              (runProg glm onUpdate
                (runProg glm script.body
                  { rt with currentScriptParent := obj.name }).1.1).2))) ∧
    (obj.scriptPath = "" → obj.runScript glm script rt = (rt, [])) := by
  constructor
  · intro hscript hlua
    have hrun := runScript_started glm script obj rt hscript hlua
    refine ⟨?_, ?_, ?_, ?_, ?_, ?_⟩
    · rw [hrun]
    · intro ev hev
      exact (runScript_context glm script obj rt ev hev).1
    · rw [hrun]
      simp only
      split
      · split
        · exact List.prefix_append _ _
        · exact List.prefix_refl _
      · exact List.prefix_refl _
    · intro hfail
      rw [hrun]
      simp only [hfail, Bool.false_eq_true, if_false]
    · intro hok hnone
      rw [hrun]
      simp only [hok, hnone, if_true]
    · intro onUpdate hok hsome
      rw [hrun]
      simp only [hok, hsome, if_true]
  · intro hempty
    unfold SceneObject.runScript
    have : obj.scriptPath.isEmpty = true := (String.isEmpty_iff _).mpr hempty
    simp only [this, Bool.true_or, if_true]

theorem runScript_context_lifecycle_witness :
    (doorObj.runScript symbolicGlm getSelfScript doorRuntime).1.currentScriptParent = "" ∧
    floorObj.runScript symbolicGlm getSelfScript doorRuntime = (doorRuntime, []) :=
  ⟨((runScript_context_lifecycle symbolicGlm getSelfScript doorObj doorRuntime).1
      (by decide) rfl).1,
    (runScript_context_lifecycle symbolicGlm getSelfScript floorObj doorRuntime).2 rfl⟩

theorem loadObject_type (glm : Glm M) (readFile : String → Option MeshImport)
    (objJson : ObjJson) : (loadObject glm readFile objJson).type = toCInt objJson.type := by
  unfold loadObject LoadMeshFromFile SceneObject.updateTransform
  simp only
  split
  · split <;> rfl
  · rfl

theorem loadObjects_append (glm : Glm M) (readFile : String → Option MeshImport)
    (l1 l2 : List ObjJson) (acc : List (SceneObject M) × Int) :
    loadObjects glm readFile (l1 ++ l2) acc =
      loadObjects glm readFile l2 (loadObjects glm readFile l1 acc) := by
  induction l1 generalizing acc with
  | nil => obtain ⟨objs, cam⟩ := acc; simp [loadObjects]
  | cons o rest ih =>
    obtain ⟨objs, cam⟩ := acc
    simp only [List.cons_append, loadObjects]
    exact ih _

theorem loadObjects_length (glm : Glm M) (readFile : String → Option MeshImport)
    (l : List ObjJson) (acc : List (SceneObject M) × Int) :
    (loadObjects glm readFile l acc).1.length = acc.1.length + l.length := by
  induction l generalizing acc with
  | nil => obtain ⟨objs, cam⟩ := acc; simp [loadObjects]
  | cons o rest ih =>
    obtain ⟨objs, cam⟩ := acc
    simp only [loadObjects]
    rw [ih]
    simp only [List.length_append, List.length_cons, List.length_nil]
    omega

theorem loadObjects_no_camera (glm : Glm M) (readFile : String → Option MeshImport)
    (l : List ObjJson) (acc : List (SceneObject M) × Int)
    (h : ∀ o ∈ l, toCInt o.type ≠ ObjectType.CAMERA) :
    (loadObjects glm readFile l acc).2 = acc.2 := by
  induction l generalizing acc with
  | nil => obtain ⟨objs, cam⟩ := acc; simp [loadObjects]
  | cons o rest ih =>
    obtain ⟨objs, cam⟩ := acc
    simp only [loadObjects]
    rw [ih _ (fun p hp => h p (List.mem_cons_of_mem _ hp))]
    have ho : (loadObject glm readFile o).type ≠ ObjectType.CAMERA := by
      rw [loadObject_type]
      exact h o (List.mem_cons_self _ _)
    simp only [ho, if_false]

theorem loadObjects_last_camera (glm : Glm M) (readFile : String → Option MeshImport)
    (pre post : List ObjJson) (o : ObjJson) (cam0 : Int)
    (ho : toCInt o.type = ObjectType.CAMERA)
    (hpost : ∀ p ∈ post, toCInt p.type ≠ ObjectType.CAMERA) :
    (loadObjects glm readFile (pre ++ o :: post) (([] : List (SceneObject M)), cam0)).2 =
      toCInt pre.length := by
  rw [loadObjects_append]
  have hlen := loadObjects_length glm readFile pre (([] : List (SceneObject M)), cam0)
  generalize loadObjects glm readFile pre (([] : List (SceneObject M)), cam0) = acc1 at hlen
  obtain ⟨objs1, cam1⟩ := acc1
  simp only [List.length_nil, Nat.zero_add] at hlen
  simp only [loadObjects]
  rw [loadObjects_no_camera glm readFile post _ hpost]
  have hty : (loadObject glm readFile o).type = ObjectType.CAMERA := by
    rw [loadObject_type]; exact ho
  simp only [hty, if_true, hlen]

theorem toCInt_of_int_range (i : Int) (hlo : -2147483648 ≤ i) (hhi : i < 2147483648) :
    toCInt i = i := by
  unfold toCInt
  omega

/-- C18 (as amended): when a scene description is loaded into a run state whose camera
index is -1, with the description's integers narrowed to `int` as the loader stores them: an
explicit scene-level camera index becomes the scene camera (unchanged when it is within the
range of `int`); without one the scene camera is the index of the last CAMERA-kind entity
(type 4 once narrowed to `int`) in the description's entity order, or -1 when the
description has no CAMERA-kind entity. -/
theorem LoadScene_camera_index (glm : Glm M) (readFile : String → Option MeshImport)
    (sceneJson : SceneJson) (rt : Runtime M) (hinit : rt.sceneCamera = -1) :
    (∀ index : Int, sceneJson.sceneCamera = some index →
      (LoadScene glm readFile (some sceneJson) rt).sceneCamera = toCInt index ∧
      (-2147483648 ≤ index → index < 2147483648 →
        (LoadScene glm readFile (some sceneJson) rt).sceneCamera = index)) ∧
    (sceneJson.sceneCamera = none →
      (∀ (pre post : List ObjJson) (o : ObjJson), sceneJson.objects = pre ++ o :: post →
        toCInt o.type = ObjectType.CAMERA →
        (∀ p ∈ post, toCInt p.type ≠ ObjectType.CAMERA) →
        pre.length < 2147483648 →
        (LoadScene glm readFile (some sceneJson) rt).sceneCamera = pre.length) ∧
      ((∀ o ∈ sceneJson.objects, toCInt o.type ≠ ObjectType.CAMERA) →
        (LoadScene glm readFile (some sceneJson) rt).sceneCamera = -1)) := by
  constructor
  · intro index hidx
    have h : (LoadScene glm readFile (some sceneJson) rt).sceneCamera = toCInt index := by
      simp only [LoadScene, hidx]
    refine ⟨h, ?_⟩
    intro hlo hhi
    rw [h, toCInt_of_int_range index hlo hhi]
  · intro hnone
    constructor
    · intro pre post o hobjs ho hpost hsmall
      simp only [LoadScene, hnone, hobjs]
      rw [loadObjects_last_camera glm readFile pre post o rt.sceneCamera ho hpost]
      exact toCInt_of_small pre.length hsmall
    · intro hno
      simp only [LoadScene, hnone]
      rw [loadObjects_no_camera glm readFile sceneJson.objects _ hno]
      exact hinit

theorem LoadScene_camera_index_witness :
    (LoadScene symbolicGlm (fun _ => none) (some twoCameraScene) {}).sceneCamera = 1 ∧
    (LoadScene symbolicGlm (fun _ => none) (some cubeScene) {}).sceneCamera = -1 :=
  ⟨((LoadScene_camera_index symbolicGlm (fun _ => none) twoCameraScene {} rfl).2 rfl).1
      [cameraJsonA] [] cameraJsonB rfl (by decide) (by decide) (by decide),
    ((LoadScene_camera_index symbolicGlm (fun _ => none) cubeScene {} rfl).2 rfl).2
      (by decide)⟩

/-- C18 (counterexample): a description with CAMERA-kind entities at indices 0 and 1 and no
explicit scene-level camera index, loaded into a run state whose camera index is -1, leaves
the scene camera at 1, not at the first camera's index 0. -/
theorem LoadScene_first_camera_counterexample :
    ({} : Runtime MatExpr).sceneCamera = -1 ∧
    twoCameraScene.sceneCamera = none ∧
    twoCameraScene.objects.map (fun o => o.type) = [ObjectType.CAMERA, ObjectType.CAMERA] ∧
    (LoadScene symbolicGlm (fun _ => none) (some twoCameraScene) {}).sceneCamera = 1 ∧
    (LoadScene symbolicGlm (fun _ => none) (some twoCameraScene) {}).sceneCamera ≠ 0 := by
  have h : (LoadScene symbolicGlm (fun _ => none) (some twoCameraScene) {}).sceneCamera = 1 := by
    have hA : (loadObject symbolicGlm (fun _ => none) cameraJsonA).type = ObjectType.CAMERA := by
      rw [loadObject_type]; decide
    have hB : (loadObject symbolicGlm (fun _ => none) cameraJsonB).type = ObjectType.CAMERA := by
      rw [loadObject_type]; decide
    have hs : twoCameraScene.objects = [cameraJsonA, cameraJsonB] := rfl
    have hn : twoCameraScene.sceneCamera = none := rfl
    simp only [LoadScene, hn, hs, loadObjects, hA, hB, if_true, List.nil_append,
      List.length_nil, List.length_singleton]
    decide
  refine ⟨rfl, rfl, rfl, h, ?_⟩
  rw [h]
  decide

end LifecycleTheorems

/-! ## Theorems: bracketing inside the key range, floor bounce, camera sync -/

section FinalTheorems

variable {M : Type}

theorem findFrameLoop_least (keyTime : Nat → ℚ) (t : ℚ) (fuel i : Nat)
    (h : ∃ j, i ≤ j ∧ j < i + fuel ∧ t < keyTime (j + 1)) :
    i ≤ findFrameLoop keyTime t fuel i ∧ findFrameLoop keyTime t fuel i < i + fuel ∧
    t < keyTime (findFrameLoop keyTime t fuel i + 1) ∧
    ∀ j, i ≤ j → j < findFrameLoop keyTime t fuel i → ¬ t < keyTime (j + 1) := by
  induction fuel generalizing i with
  | zero =>
    obtain ⟨j, h1, h2, _⟩ := h
    omega
  | succ fuel ih =>
    by_cases hi : t < keyTime (i + 1)
    · have hr : findFrameLoop keyTime t (fuel + 1) i = i := by
        simp only [findFrameLoop, hi, if_true]
      rw [hr]
      exact ⟨le_refl i, by omega, hi, fun j h1 h2 => by omega⟩
    · have hr : findFrameLoop keyTime t (fuel + 1) i =
          findFrameLoop keyTime t fuel (i + 1) := by
        simp only [findFrameLoop, hi, if_false]
      rw [hr]
      obtain ⟨j, h1, h2, h3⟩ := h
      have hne : j ≠ i := fun he => hi (he ▸ h3)
      obtain ⟨r1, r2, r3, r4⟩ := ih (i + 1) ⟨j, by omega, by omega, h3⟩
      refine ⟨by omega, by omega, r3, ?_⟩
      intro k hk1 hk2
      by_cases hki : k = i
      · rw [hki]; exact hi
      · exact r4 k (by omega) hk2

theorem clamp_of_mem (x : ℚ) (h0 : 0 ≤ x) (h1 : x ≤ 1) : clamp x 0 1 = x := by
  unfold clamp
  rw [max_eq_left h0]
  exact min_eq_left h1

/-- C21: for a channel with at least two keys and a clock with time[0] <= clock <
time[count-1], the bracket index i chosen by the search satisfies
time[i] <= clock < time[i+1] with next = i+1, the interpolation fraction is
(clock - time[i]) / (time[i+1] - time[i]), lies in [0, 1) so that the clamp has no effect,
and the sampled position or scale is the linear interpolation of keys i and i+1 (this holds
whether or not the key times are non-decreasing). -/
theorem sampleVectorKeys_inside_range (keys : List AiVectorKey) (clock : ℚ)
    (hn : 2 ≤ keys.length) (hlo : (vectorKey keys 0).mTime ≤ clock)
    (hhi : clock < (vectorKey keys (keys.length - 1)).mTime) :
    ∃ i : Nat, findFrame (fun k => (vectorKey keys k).mTime) keys.length clock = i ∧
      i + 1 < keys.length ∧ (i + 1) % keys.length = i + 1 ∧
      (vectorKey keys i).mTime ≤ clock ∧ clock < (vectorKey keys (i + 1)).mTime ∧
      keyDelta (vectorKey keys i).mTime (vectorKey keys (i + 1)).mTime clock =
        (clock - (vectorKey keys i).mTime) /
          ((vectorKey keys (i + 1)).mTime - (vectorKey keys i).mTime) ∧
      0 ≤ (clock - (vectorKey keys i).mTime) /
          ((vectorKey keys (i + 1)).mTime - (vectorKey keys i).mTime) ∧
      (clock - (vectorKey keys i).mTime) /
          ((vectorKey keys (i + 1)).mTime - (vectorKey keys i).mTime) < 1 ∧
      sampleVectorKeys keys clock =
        ⟨(vectorKey keys i).mValue.x +
            ((vectorKey keys (i + 1)).mValue.x - (vectorKey keys i).mValue.x) *
              ((clock - (vectorKey keys i).mTime) /
                ((vectorKey keys (i + 1)).mTime - (vectorKey keys i).mTime)),
          (vectorKey keys i).mValue.y +
            ((vectorKey keys (i + 1)).mValue.y - (vectorKey keys i).mValue.y) *
              ((clock - (vectorKey keys i).mTime) /
                ((vectorKey keys (i + 1)).mTime - (vectorKey keys i).mTime)),
          (vectorKey keys i).mValue.z +
            ((vectorKey keys (i + 1)).mValue.z - (vectorKey keys i).mValue.z) *
              ((clock - (vectorKey keys i).mTime) /
                ((vectorKey keys (i + 1)).mTime - (vectorKey keys i).mTime))⟩ := by
  have hex : ∃ j, 0 ≤ j ∧ j < 0 + (keys.length - 1) ∧
      clock < (fun k => (vectorKey keys k).mTime) (j + 1) := by
    refine ⟨keys.length - 2, Nat.zero_le _, by omega, ?_⟩
    have he : keys.length - 2 + 1 = keys.length - 1 := by omega
    simp only [he]
    exact hhi
  obtain ⟨_, r2, r3, r4⟩ :=
    findFrameLoop_least (fun k => (vectorKey keys k).mTime) clock (keys.length - 1) 0 hex
  have hfr : findFrame (fun k => (vectorKey keys k).mTime) keys.length clock =
      findFrameLoop (fun k => (vectorKey keys k).mTime) clock (keys.length - 1) 0 := rfl
  generalize findFrameLoop (fun k => (vectorKey keys k).mTime) clock (keys.length - 1) 0 = i
    at r2 r3 r4 hfr
  have r3 : clock < (vectorKey keys (i + 1)).mTime := r3
  have r4 : ∀ j, 0 ≤ j → j < i → ¬ clock < (vectorKey keys (j + 1)).mTime := r4
  have hi1 : i + 1 < keys.length := by omega
  have hmod : (i + 1) % keys.length = i + 1 := Nat.mod_eq_of_lt hi1
  have hti : (vectorKey keys i).mTime ≤ clock := by
    cases i with
    | zero => exact hlo
    | succ k => exact not_lt.mp (r4 k (Nat.zero_le _) (by omega))
  have hpos : 0 < (vectorKey keys (i + 1)).mTime - (vectorKey keys i).mTime := by linarith
  have hne : (vectorKey keys (i + 1)).mTime - (vectorKey keys i).mTime ≠ 0 := ne_of_gt hpos
  have hf0 : 0 ≤ (clock - (vectorKey keys i).mTime) /
      ((vectorKey keys (i + 1)).mTime - (vectorKey keys i).mTime) :=
    div_nonneg (by linarith) (le_of_lt hpos)
  have hf1 : (clock - (vectorKey keys i).mTime) /
      ((vectorKey keys (i + 1)).mTime - (vectorKey keys i).mTime) < 1 := by
    rw [div_lt_one hpos]
    linarith
  have hdelta : keyDelta (vectorKey keys i).mTime (vectorKey keys (i + 1)).mTime clock =
      (clock - (vectorKey keys i).mTime) /
        ((vectorKey keys (i + 1)).mTime - (vectorKey keys i).mTime) := by
    unfold keyDelta
    simp only [hne, if_false]
    exact clamp_of_mem _ hf0 (le_of_lt hf1)
  refine ⟨i, hfr, hi1, hmod, hti, r3, hdelta, hf0, hf1, ?_⟩
  rw [sampleVectorKeys_eq_interpolate, hfr]
  simp only [interpolateVectorKeys, hmod, hdelta]

theorem sampleVectorKeys_inside_range_witness :
    ∃ i : Nat, findFrame (fun k => (vectorKey rampKeys k).mTime) rampKeys.length (3 / 2) = i ∧
      (vectorKey rampKeys i).mTime ≤ 3 / 2 ∧ 3 / 2 < (vectorKey rampKeys (i + 1)).mTime := by
  obtain ⟨i, h1, -, -, h4, h5, -⟩ :=
    sampleVectorKeys_inside_range rampKeys (3 / 2) (by decide)
      (by norm_num [vectorKey, rampKeys]) (by norm_num [vectorKey, rampKeys])
  exact ⟨i, h1, h4, h5⟩

/-- C22: for an integrated entity that starts a physics step with position.y >= -1 and any
dt > 0, if the floor clamp fires in that step then the velocity.y left by the step is
strictly positive and equals half of the post-gravity downward speed -v'.y, where the
post-gravity velocity v'.y is negative. -/
theorem physicsStep_bounce_upward (glm : Glm M) (dt : ℚ) (obj : SceneObject M)
    (hp : obj.hasPhysics = true) (hs : obj.isStatic = false)
    (hfloor : -1 ≤ obj.position.y) (hdt : 0 < dt)
    (hclamp : (integratePosition (integrateVelocity obj dt) dt).position.y < -1) :
    0 < (physicsStep glm dt obj).velocity.y ∧
    (integrateVelocity obj dt).velocity.y < 0 ∧
    (physicsStep glm dt obj).velocity.y = -(integrateVelocity obj dt).velocity.y / 2 ∧
    |(physicsStep glm dt obj).velocity.y| = |(integrateVelocity obj dt).velocity.y| / 2 := by
  have hv : (physicsStep glm dt obj).velocity.y =
      -(integrateVelocity obj dt).velocity.y / 2 := by
    rw [physicsStep_integrated glm dt obj hp hs]
    simp only [SceneObject.updateTransform, groundCollision, hclamp, if_true]
    show -(integrateVelocity obj dt).velocity.y * (1 / 2) = _
    ring
  have hneg : (integrateVelocity obj dt).velocity.y < 0 := by
    have hpos : (integratePosition (integrateVelocity obj dt) dt).position.y =
        obj.position.y + (integrateVelocity obj dt).velocity.y * dt := by
      simp only [integratePosition, Vec3.add_def, Vec3.smul_def]
      rfl
    rw [hpos] at hclamp
    by_contra hge
    have : 0 ≤ (integrateVelocity obj dt).velocity.y * dt :=
      mul_nonneg (not_lt.mp hge) (le_of_lt hdt)
    linarith
  refine ⟨by rw [hv]; linarith, hneg, hv, ?_⟩
  rw [hv, abs_of_neg hneg, abs_of_pos (by linarith)]

theorem physicsStep_bounce_upward_witness :
    0 < (physicsStep symbolicGlm 1 restingCube).velocity.y := by
  have hy : (integratePosition (integrateVelocity restingCube 1) 1).position.y < -1 := by
    simp [integratePosition, integrateVelocity, restingCube, gravity, Vec3.add_def,
      Vec3.smul_def, Vec3.splat]
    norm_num
  exact (physicsStep_bounce_upward symbolicGlm 1 restingCube rfl rfl
    (by norm_num [restingCube, Vec3.splat]) (by norm_num) hy).1

end FinalTheorems

section CameraTheorems

variable {M : Type}

theorem objectAt_of_nat (objs : List (SceneObject M)) (c : Nat)
    (hc : c < 18446744073709551616) : objectAt objs (c : Int) = objs.get? c := by
  unfold objectAt
  have : ((c : Int) % 18446744073709551616).toNat = c := by omega
  rw [this]

/-- What the guard of SyncSceneCameraWithView does establish: with the index -1 or not below
the store size the run state is returned unchanged, and with an index in [0, N) the entity at
that index is read and, when it is CAMERA-kind, its position, rotation.y (yaw), rotation.x
(pitch), fov, near and far are copied into the view camera before `updateVectors`. -/
theorem SyncSceneCameraWithView_guarded (updateVectors : Camera → Camera) (rt : Runtime M) :
    (rt.sceneCamera = -1 ∨ rt.sceneCamera ≥ toCInt rt.sceneObjects.length →
      SyncSceneCameraWithView updateVectors rt = some rt) ∧
    (∀ (c : Nat) (camObj : SceneObject M), rt.sceneCamera = c →
      rt.sceneObjects.get? c = some camObj → rt.sceneObjects.length < 2147483648 →
      (camObj.type ≠ ObjectType.CAMERA → SyncSceneCameraWithView updateVectors rt = some rt) ∧
      (camObj.type = ObjectType.CAMERA →
        SyncSceneCameraWithView updateVectors rt =
          some { rt with
            camera := updateVectors
              { rt.camera with
                position := camObj.position
                yaw := camObj.rotation.y
                pitch := camObj.rotation.x
                fov := camObj.cameraFOV
                nearPlane := camObj.cameraNear
                farPlane := camObj.cameraFar } })) := by
  constructor
  · intro h
    unfold SyncSceneCameraWithView
    rw [if_pos h]
  · intro c camObj hc hget hsize
    have hlt : c < rt.sceneObjects.length := by
      rw [List.get?_eq_getElem?] at hget
      exact (List.getElem?_eq_some_iff.mp hget).1
    have hguard : ¬ (rt.sceneCamera = -1 ∨ rt.sceneCamera ≥ toCInt rt.sceneObjects.length) := by
      rw [hc, toCInt_of_small _ hsize]
      omega
    have hat : objectAt rt.sceneObjects rt.sceneCamera = some camObj := by
      rw [hc, objectAt_of_nat _ c (by omega)]
      exact hget
    constructor
    · intro hty
      unfold SyncSceneCameraWithView
      rw [if_neg hguard]
      simp only [hat, hty, ne_eq, not_false_eq_true, if_true]
    · intro hty
      unfold SyncSceneCameraWithView
      rw [if_neg hguard]
      simp only [hat, hty, ne_eq, not_true_eq_false, if_false]

/-- C23 (failing input): a scene file with one entity and "sceneCamera": -2 loads with
scene-camera index -2; the guard of SyncSceneCameraWithView rejects only -1 and indices not
below the store size, so the function goes on to index the store at -2, outside [0, 1). -/
theorem SyncSceneCameraWithView_negative_index :
    negativeCameraScene.sceneCamera = some (-2) ∧
    (LoadScene symbolicGlm (fun _ => none) (some negativeCameraScene) {}).sceneCamera = -2 ∧
    (LoadScene symbolicGlm (fun _ => none) (some negativeCameraScene)
      {}).sceneObjects.length = 1 ∧
    objectAt (LoadScene symbolicGlm (fun _ => none) (some negativeCameraScene) {}).sceneObjects
      (-2) = none ∧
    (SyncSceneCameraWithView (fun cam => cam)
      (LoadScene symbolicGlm (fun _ => none) (some negativeCameraScene) {})).isNone = true := by
  have h1 : (LoadScene symbolicGlm (fun _ => none) (some negativeCameraScene)
      {}).sceneCamera = -2 := rfl
  have h2 : (LoadScene symbolicGlm (fun _ => none) (some negativeCameraScene)
      {}).sceneObjects.length = 1 := rfl
  have h3 : objectAt (LoadScene symbolicGlm (fun _ => none) (some negativeCameraScene)
      {}).sceneObjects (-2) = none := by
    unfold objectAt
    rw [List.get?_eq_none]
    rw [h2]
    decide
  refine ⟨rfl, h1, h2, h3, ?_⟩
  unfold SyncSceneCameraWithView
  have hguard : ¬ ((LoadScene symbolicGlm (fun _ => none) (some negativeCameraScene)
      {}).sceneCamera = -1 ∨
      (LoadScene symbolicGlm (fun _ => none) (some negativeCameraScene) {}).sceneCamera ≥
        toCInt (LoadScene symbolicGlm (fun _ => none) (some negativeCameraScene)
          {}).sceneObjects.length) := by
    rw [h1, h2]
    decide
  rw [if_neg hguard, h1, h3]
  rfl

end CameraTheorems

end RenderCore
